import Mathlib

/-!
Verification of the Naglfar Analytics behavioral event-graph core.

This file shallowly embeds the core Python modules of the repository:

* `src/infrastructure/neo4j/src/assertions.py` (expected-count grammar,
  comparator dispatch, per-assertion error isolation, exit codes);
* `src/infrastructure/neo4j/src/load.py` (batch loader Cypher semantics:
  Event node creation, entity upserts with watermarks, relationship
  creation, and the temporal NEXT_EVENT derivation pass);
* `src/infrastructure/neo4j/generate-test-data.py` (corpus generator:
  normal journeys, brute-force attacks, session-sharing patterns);
* `src/infrastructure/neo4j/src/scenario.py` (declarative scenario fixture
  generator).

Conventions of the embedding:

* Python strings are `List Char`; `str.strip`, `str.startswith`,
  `str.replace(pat, "")`, `"c" in s` and `int(s)` are modelled character by
  character (ASCII digits and whitespace, which is all the code produces).
* Timestamps are absolute instants in integer milliseconds.  The Python code
  carries ISO-8601 strings produced by `datetime.isoformat` from a common
  base; for such strings lexicographic order coincides with chronological
  order, so sorting by the string key is sorting by the instant.
* The `random` module (seedable Mersenne state) is modelled as a stream of
  raw draws `Rand`; `uuid.uuid4()` draws from `os.urandom`, a distinct,
  non-seedable source, modelled as a separate stream `UStream`.  Each draw
  pops one value (an exhausted stream yields 0, a fixed default, which loses
  no generality for the stated properties).
* Fallible Python code (raising `ValueError` etc.) returns an explicit
  error-carrying result type.
-/

namespace Naglfar

/-! ## Python string primitives -/

/-- Whitespace recognised by `str.strip` (the ASCII subset, which is all the
code ever produces). -/
def pyIsSpace (c : Char) : Bool :=
  c = ' ' || c = '\t' || c = '\n' || c = '\r'

/-- `s.lstrip()`. -/
def lstrip (l : List Char) : List Char := l.dropWhile pyIsSpace

/-- `s.rstrip()` (drop trailing whitespace; `List.rdropWhile` is literally
`(l.reverse.dropWhile p).reverse`). -/
def rstrip (l : List Char) : List Char := l.rdropWhile pyIsSpace

/-- `s.strip()`. -/
def pyStrip (l : List Char) : List Char := lstrip (rstrip l)

/-- `s.startswith(pat)`. -/
def strStartsWith (s pat : List Char) : Bool := pat.isPrefixOf s

/-- Scanner for `s.replace(pat, repl)` with the nonempty pattern `p :: ps`:
left to right, replacing each non-overlapping occurrence by `repl`.  When
`skip > 0` the scanner is inside a matched occurrence and consumes `skip`
further characters without emitting them (the head of a match was already
consumed), so a match at position `i` continues scanning at position
`i + pattern.length`, exactly as Python's `str.replace` does. -/
def strReplaceGo (p : Char) (ps repl : List Char) : Nat → List Char → List Char
  | _, [] => []
  | skip + 1, _ :: cs => strReplaceGo p ps repl skip cs
  | 0, c :: cs =>
    if (p :: ps).isPrefixOf (c :: cs) then
      repl ++ strReplaceGo p ps repl ps.length cs
    else
      c :: strReplaceGo p ps repl 0 cs

/-- `s.replace(pat, repl)` for a nonempty pattern `p :: ps`. -/
def strReplace (p : Char) (ps repl : List Char) (l : List Char) : List Char :=
  strReplaceGo p ps repl 0 l

/-- `s.replace(pat, "")` for a nonempty pattern `p :: ps`. -/
def strRemoveAll (p : Char) (ps : List Char) (l : List Char) : List Char :=
  strReplaceGo p ps [] 0 l

/-- `"c" in s` for a single-character needle. -/
def strHasChar (c : Char) (s : List Char) : Bool := s.contains c

/-- Numeric value of an ASCII digit. -/
def digitVal (c : Char) : Nat := c.toNat - 48

/-- Digit-run part of `int(s)`: after the first digit, Python accepts further
digits with single underscores strictly between digits.  `acc` is the value
of the digits consumed so far. -/
def pyDigitsCore (acc : Nat) : List Char → Option Nat
  | [] => some acc
  | c :: cs =>
    if c.isDigit then pyDigitsCore (10 * acc + digitVal c) cs
    else if c = '_' then
      match cs with
      | [] => none
      | d :: cs' => if d.isDigit then pyDigitsCore (10 * acc + digitVal d) cs' else none
    else none

/-- `int(s)` on an already-stripped string: an optional sign followed by a
nonempty digit run (underscores allowed between digits). -/
def pyIntCore : List Char → Option Int
  | [] => none
  | '+' :: c :: cs => if c.isDigit then (pyDigitsCore (digitVal c) cs).map Int.ofNat else none
  | '-' :: c :: cs =>
    if c.isDigit then (pyDigitsCore (digitVal c) cs).map (fun n => -(Int.ofNat n)) else none
  | c :: cs => if c.isDigit then (pyDigitsCore (digitVal c) cs).map Int.ofNat else none

/-- `int(s)`: Python strips surrounding whitespace itself. -/
def pyInt (s : List Char) : Option Int := pyIntCore (pyStrip s)

/-! ## `assertions.py`: the expected-count grammar

`AssertionRunner.parse_expected_count` takes the YAML value of
`expected_result_count`, either an `int` or a string. -/

/-- The dynamic value fed to `parse_expected_count` (an `int` or a `str` in
the Python code). -/
inductive PyVal where
  | vint (n : Int)
  | vstr (s : List Char)
deriving DecidableEq, Repr

/-- Result of `parse_expected_count`.  `errNamed` is the
`ValueError(f"Cannot parse expected_result_count: {expected}")` raised at the
end of the function, which names the offending expression; `errInt` is the
`ValueError` escaping from a bare `int(...)` call inside one of the branches,
which names only the literal handed to `int`. -/
inductive PResult where
  | ok (op : List Char) (value : Int)
  | errNamed (expr : List Char)
  | errInt (lit : List Char)
deriving DecidableEq, Repr

/-- `AssertionRunner.parse_expected_count` (assertions.py lines 77-127),
branch for branch. -/
def parse_expected_count (expected : PyVal) : PResult :=
  match expected with
  | .vint n => .ok "==".toList n
  | .vstr s =>
    let expected_str := pyStrip s
    if strStartsWith expected_str ">=".toList then
      match pyInt (pyStrip (strRemoveAll '>' ['='] expected_str)) with
      | some v => .ok ">=".toList v
      | none => .errInt (pyStrip (strRemoveAll '>' ['='] expected_str))
    else if strStartsWith expected_str ">".toList then
      match pyInt (pyStrip (strRemoveAll '>' [] expected_str)) with
      | some v => .ok ">".toList v
      | none => .errInt (pyStrip (strRemoveAll '>' [] expected_str))
    else if strStartsWith expected_str "<=".toList then
      match pyInt (pyStrip (strRemoveAll '<' ['='] expected_str)) with
      | some v => .ok "<=".toList v
      | none => .errInt (pyStrip (strRemoveAll '<' ['='] expected_str))
    else if strStartsWith expected_str "<".toList then
      match pyInt (pyStrip (strRemoveAll '<' [] expected_str)) with
      | some v => .ok "<".toList v
      | none => .errInt (pyStrip (strRemoveAll '<' [] expected_str))
    else
      -- "~N-M" branch: when the dash is present it returns ">= lower";
      -- otherwise control falls through to the plain-integer attempt below.
      let range_str := pyStrip (strRemoveAll '~' [] expected_str)
      if strStartsWith expected_str "~".toList && strHasChar '-' range_str then
        match pyInt (range_str.takeWhile (fun c => c ≠ '-')) with
        | some v => .ok ">=".toList v
        | none => .errInt (range_str.takeWhile (fun c => c ≠ '-'))
      else
        match pyInt expected_str with
        | some v => .ok "==".toList v
        | none => .errNamed s

/-- `AssertionRunner.check_assertion` (assertions.py lines 129-142): string
dispatch on the operator; the final `else` raises
`ValueError(f"Unknown operator: ...")`, modelled as `Except.error`. -/
def check_assertion (op : List Char) (actual expected : Int) : Except Unit Bool :=
  if op = "==".toList then .ok (actual == expected)
  else if op = ">=".toList then .ok (actual ≥ expected)
  else if op = ">".toList then .ok (actual > expected)
  else if op = "<=".toList then .ok (actual ≤ expected)
  else if op = "<".toList then .ok (actual < expected)
  else .error ()

/-! ## The event record

Shape of the prepared event dict built in `load_data` (load.py lines
209-228) and produced by the generators.  Optional fields that Python leaves
out of the dict (or sets to `None`) are `none`. -/

structure Event where
  event_id : String
  action : Option String := none
  status : Option String := none
  timestamp : Int
  client_ip : Option String := none
  user_agent : Option String := none
  device_type : Option String := none
  path : Option String := none
  query : Option String := none
  session_id : Option String := none
  user_id : Option Int := none
  email : Option String := none
  store_id : Option String := none
  auth_token_id : Option String := none
  data : Option String := none
  archived : Bool := false
deriving DecidableEq, Repr

/-! ## `load.py`: graph state and the batch loader

The Cypher statement of `Neo4jDataLoader.load_events_batch` (load.py lines
56-120) is embedded as a state transformer per `UNWIND` row. -/

/-- `IPAddress` node: `MERGE` keyed by `address`, watermark properties. -/
structure IPNode where
  address : String
  first_seen : Int
  last_seen : Int
deriving DecidableEq, Repr

/-- `Session` node: `MERGE` keyed by `session_id`. -/
structure SessionNode where
  session_id : String
  created_at : Int
  last_activity : Int
deriving DecidableEq, Repr

/-- `User` node: `MERGE` keyed by `user_id`, create-only `created_at`. -/
structure UserNode where
  user_id : Int
  created_at : Int
deriving DecidableEq, Repr

/-- `Store` node: `MERGE` keyed by `store_id`, create-only `created_at`. -/
structure StoreNode where
  store_id : String
  created_at : Int
deriving DecidableEq, Repr

inductive RelKind where
  | originatedFrom
  | inSession
  | performedBy
  | targetedStore
deriving DecidableEq, Repr

/-- An `Event → entity` relationship.  The source event node is identified by
its creation index (each `CREATE` makes a fresh node); the entity endpoint by
its natural key (user ids rendered in decimal).  Every edge carries the
triggering event's timestamp; the store edge additionally carries
path/query. -/
structure Rel where
  kind : RelKind
  eventIndex : Nat
  targetKey : String
  timestamp : Int
  path : Option String := none
  query : Option String := none
deriving DecidableEq, Repr

structure GraphState where
  events : List Event := []
  ips : List IPNode := []
  sessions : List SessionNode := []
  users : List UserNode := []
  stores : List StoreNode := []
  rels : List Rel := []
deriving DecidableEq, Repr

def emptyGraph : GraphState := {}

/-- Step 2 of the Cypher statement: `MERGE (ip:IPAddress {address: ...})`
with `ON CREATE SET first_seen = last_seen = t` and
`ON MATCH SET last_seen = t` (load.py lines 79-85).  Note that `ON MATCH`
overwrites `last_seen` unconditionally and never touches `first_seen`. -/
def upsertIP (ips : List IPNode) (addr : String) (t : Int) : List IPNode :=
  if ips.any (fun ip => ip.address == addr) then
    ips.map (fun ip => if ip.address == addr then { ip with last_seen := t } else ip)
  else
    ips ++ [{ address := addr, first_seen := t, last_seen := t }]

/-- Step 4: `MERGE (s:Session {session_id: ...})`, `ON CREATE` both
timestamps, `ON MATCH SET last_activity = t` (load.py lines 92-97). -/
def upsertSession (ss : List SessionNode) (sid : String) (t : Int) : List SessionNode :=
  if ss.any (fun s => s.session_id == sid) then
    ss.map (fun s => if s.session_id == sid then { s with last_activity := t } else s)
  else
    ss ++ [{ session_id := sid, created_at := t, last_activity := t }]

/-- Step 5: `MERGE (u:User {user_id: ...})`, `ON CREATE SET created_at = t`,
nothing on match (load.py lines 103-104). -/
def upsertUser (us : List UserNode) (uid : Int) (t : Int) : List UserNode :=
  if us.any (fun u => u.user_id == uid) then us
  else us ++ [{ user_id := uid, created_at := t }]

/-- Step 6: `MERGE (st:Store {store_id: ...})`, `ON CREATE SET created_at = t`
(load.py lines 110-111). -/
def upsertStore (sts : List StoreNode) (stid : String) (t : Int) : List StoreNode :=
  if sts.any (fun s => s.store_id == stid) then sts
  else sts ++ [{ store_id := stid, created_at := t }]

/-- One `UNWIND` row of the `load_events_batch` Cypher statement: create the
Event node unconditionally, then upsert the `IPAddress` node and create
`ORIGINATED_FROM`, and — via the `FOREACH (... CASE WHEN field IS NOT NULL
...)` guards — conditionally upsert `Session`/`User`/`Store` and create the
corresponding edge.  (A null `client_ip` would make `MERGE` abort the whole
batch; the loader's inputs always carry one, and the theorems below assume
it where relevant.) -/
def loadEvent (st : GraphState) (e : Event) : GraphState :=
  let idx := st.events.length
  let st := { st with events := st.events ++ [e] }
  let st :=
    match e.client_ip with
    | some addr =>
      { st with
        ips := upsertIP st.ips addr e.timestamp
        rels := st.rels ++ [{ kind := .originatedFrom, eventIndex := idx,
                              targetKey := addr, timestamp := e.timestamp }] }
    | none => st
  let st :=
    match e.session_id with
    | some sid =>
      { st with
        sessions := upsertSession st.sessions sid e.timestamp
        rels := st.rels ++ [{ kind := .inSession, eventIndex := idx,
                              targetKey := sid, timestamp := e.timestamp }] }
    | none => st
  let st :=
    match e.user_id with
    | some uid =>
      { st with
        users := upsertUser st.users uid e.timestamp
        rels := st.rels ++ [{ kind := .performedBy, eventIndex := idx,
                              targetKey := toString uid, timestamp := e.timestamp }] }
    | none => st
  match e.store_id with
  | some stid =>
    { st with
      stores := upsertStore st.stores stid e.timestamp
      rels := st.rels ++ [{ kind := .targetedStore, eventIndex := idx,
                            targetKey := stid, timestamp := e.timestamp,
                            path := e.path, query := e.query }] }
  | none => st

/-- `Neo4jDataLoader.load_events_batch`: all rows of the batch applied in
order; `RETURN count(e) as events_created` counts one created Event node per
row. -/
def load_events_batch (st : GraphState) (events : List Event) : GraphState × Nat :=
  (events.foldl loadEvent st, events.length)

/-! ## `load.py`: the temporal relationship deriver -/

/-- Order used by `ORDER BY e.timestamp` and by the generators'
`events.sort(key=lambda e: e["timestamp"])`. -/
def tsLe (a b : Event) : Prop := a.timestamp ≤ b.timestamp

instance : DecidableRel tsLe := fun a b => inferInstanceAs (Decidable (a.timestamp ≤ b.timestamp))

instance : IsTotal Event tsLe := ⟨fun a b => Int.le_total a.timestamp b.timestamp⟩

instance : IsTrans Event tsLe := ⟨fun _ _ _ hab hbc => Int.le_trans hab hbc⟩

/-- Timestamp sort.  Python's `list.sort` and Cypher's `ORDER BY` are stable,
and any two stable sorts by the same key agree, so insertion sort is an exact
model. -/
def sortByTimestamp (l : List Event) : List Event := l.insertionSort tsLe

/-- The `UNWIND range(0, size(events)-2)` step: consecutive pairs of the
per-session ordered event list. -/
def consecutivePairs {α : Type} (l : List α) : List (α × α) := l.zip l.tail

/-- A derived `NEXT_EVENT` edge with its `time_delta_ms` property. -/
structure NextEdge where
  src : Event
  dst : Event
  time_delta_ms : Int
deriving DecidableEq, Repr

/-- The rows the `create_temporal_relationships` Cypher statement produces
for one session: its incident events (those loaded with this `session_id`,
which are exactly the ones with an `IN_SESSION` edge to this node), ordered
by timestamp, paired consecutively, filtered by the
`WHERE current.session_id = next.session_id` guard, each row merging one
`NEXT_EVENT` edge carrying `duration.between(...).milliseconds`. -/
def sessionChain (st : GraphState) (sid : String) : List NextEdge :=
  let es := sortByTimestamp (st.events.filter (fun e => e.session_id == some sid))
  ((consecutivePairs es).filter (fun p => p.1.session_id == p.2.session_id)).map
    (fun p => { src := p.1, dst := p.2, time_delta_ms := p.2.timestamp - p.1.timestamp })

/-- `Neo4jDataLoader.create_temporal_relationships` (load.py lines 127-147):
`MATCH (s:Session)<-[:IN_SESSION]-(e:Event)` groups per session node; the
statement returns `count(*)`, one row per merged edge. -/
def create_temporal_relationships (st : GraphState) : List NextEdge × Nat :=
  let edges := (st.sessions.map SessionNode.session_id).flatMap (sessionChain st)
  (edges, edges.length)

/-! ## Randomness model

`random.randint` / `random.choice` / `random.random` all draw from the one
seedable Mersenne state of the `random` module, modelled as a stream `Rand`
of raw draws (a fixed seed determines the whole stream).  `uuid.uuid4()`
draws from `os.urandom`, which `random.seed` does not influence, modelled as
the separate stream `UStream`.  An exhausted stream yields `0`.  Tuple
unpacking is written with `.1`/`.2` projections throughout. -/

abbrev Rand := List Nat

abbrev UStream := List Nat

def drawNat : List Nat → Nat × List Nat
  | [] => (0, [])
  | n :: r => (n, r)

/-- `random.randint(lo, hi)`: uniform on the inclusive range (the call sites
always have `lo ≤ hi`). -/
def pyRandint (lo hi : Int) (r : Rand) : Int × Rand :=
  let s := drawNat r
  (lo + (↑(s.1 % (hi - lo + 1).toNat) : Int), s.2)

/-- `random.choice(xs)` on the nonempty constant pools of the generator;
`d` is a technical default that a nonempty pool never uses. -/
def pyChoice {α : Type} (xs : List α) (d : α) (r : Rand) : α × Rand :=
  let s := drawNat r
  (xs.getD (s.1 % xs.length) d, s.2)

/-- `random.random()` scaled to millionths, so that a comparison
`random.random() > p` becomes a comparison against `p · 10^6`. -/
def pyRandomUnit (r : Rand) : Nat × Rand :=
  let s := drawNat r
  (s.1 % 1000000, s.2)

/-- `str(uuid.uuid4())`: one fresh draw from the urandom-backed stream. -/
def uuid4 (u : UStream) : String × UStream :=
  let s := drawNat u
  ("uuid-" ++ toString s.1, s.2)

/-- `uuid.uuid4().hex[:16]`. -/
def uuidHex16 (u : UStream) : String × UStream :=
  let s := drawNat u
  ("hex" ++ toString s.1, s.2)

/-- `generate_uuid_v7` (generate-test-data.py lines 88-90): despite its name
it simply returns `str(uuid.uuid4())`. -/
def generate_uuid_v7 (u : UStream) : String × UStream := uuid4 u

/-- `UUIDv7Generator.generate` (scenario.py lines 35-45): computes a
timestamp prefix and a `uuid.uuid4().hex[13:]` random part, discards both,
and returns a second, fresh `str(uuid.uuid4())`.  The discarded uuid4 call
still consumes entropy. -/
def uuidV7Generate (u : UStream) : String × UStream :=
  let s := uuid4 u
  uuid4 s.2

/-! ## `generate-test-data.py`: pools and helpers -/

def STORES : List String := ["store-1", "store-2", "store-3", "store-4", "store-5"]

def PATHS : List String :=
  ["/api/v1/\x7bstore\x7d/auth/login",
   "/api/v1/\x7bstore\x7d/auth/register",
   "/api/v1/\x7bstore\x7d/books",
   "/api/v1/\x7bstore\x7d/books/\x7bid\x7d",
   "/api/v1/\x7bstore\x7d/cart",
   "/api/v1/\x7bstore\x7d/cart/add",
   "/api/v1/\x7bstore\x7d/cart/remove",
   "/api/v1/\x7bstore\x7d/checkout",
   "/api/v1/\x7bstore\x7d/orders",
   "/api/v1/\x7bstore\x7d/orders/\x7bid\x7d"]

def webAgents : List String :=
  ["Mozilla/5.0 (Windows NT 10.0; Win64; x64) AppleWebKit/537.36",
   "Mozilla/5.0 (Macintosh; Intel Mac OS X 10_15_7) AppleWebKit/537.36",
   "Mozilla/5.0 (X11; Linux x86_64) AppleWebKit/537.36"]

def mobileAgents : List String :=
  ["Mozilla/5.0 (iPhone; CPU iPhone OS 14_7_1 like Mac OS X)",
   "Mozilla/5.0 (iPad; CPU OS 14_7_1 like Mac OS X)",
   "Mozilla/5.0 (Linux; Android 10; SM-G973F) AppleWebKit/537.36"]

def botAgents : List String := ["Python-Requests/2.28.1", "curl/7.68.0"]

/-- `USER_AGENTS[device]`. -/
def userAgentsFor (device : String) : List String :=
  if device = "web" then webAgents
  else if device = "mobile" then mobileAgents
  else if device = "bot" then botAgents
  else []

/-- Does `pat` occur as a contiguous substring (Python `pat in s`)? -/
def strContainsSub (pat : List Char) : List Char → Bool
  | [] => pat.isEmpty
  | c :: cs => pat.isPrefixOf (c :: cs) || strContainsSub pat cs

/-- `path.format(store=store_id, id=n)`: the only format fields occurring in
the templates are `\x7bstore\x7d` and `\x7bid\x7d`. -/
def pyFormatPath (template : String) (store_id : String) (idnum : Int) : String :=
  ⟨strReplace '\x7b' "id\x7d".toList (toString idnum).toList
    (strReplace '\x7b' "store\x7d".toList store_id.toList template.toList)⟩

/-- `generate_ip_address` (generate-test-data.py lines 83-85): four draws,
composed left to right. -/
def generate_ip_address (r : Rand) : String × Rand :=
  let a := pyRandint 1 255 r
  let b := pyRandint 0 255 a.2
  let c := pyRandint 0 255 b.2
  let d := pyRandint 1 254 c.2
  (toString a.1 ++ "." ++ toString b.1 ++ "." ++ toString c.1 ++ "." ++ toString d.1, d.2)

/-- Python truthiness of an optional string (`None` and `""` are falsy). -/
def truthyOptStr (s : Option String) : Bool := s.getD "" ≠ ""

/-- Python truthiness of an optional int (`None` and `0` are falsy). -/
def truthyOptInt (i : Option Int) : Bool := i.getD 0 ≠ 0

/-! ## `generate-test-data.py`: UserBehavior and the event constructor -/

structure UserBehavior where
  user_id : Option Int
  ip_address : String
  session_id : String
  device_type : String
  user_agent : String
  is_malicious : Bool
  auth_token_id : String
deriving DecidableEq, Repr

/-- `UserBehavior.__init__` (generate-test-data.py lines 57-75): a fresh
session uuid, a device-type choice when none is given, a user-agent choice
(bot pool and forced `"web"` device for malicious users), and a fresh token
id. -/
def UserBehavior.init (user_id : Option Int) (ip_address : String)
    (is_malicious : Bool) (device_type : Option String)
    (r : Rand) (u : UStream) : UserBehavior × Rand × UStream :=
  let sid := uuid4 u
  let dev0 : String × Rand :=
    match device_type with
    | some d => (d, r)
    | none => pyChoice ["web", "mobile"] "web" r
  let agentDev : String × String × Rand :=
    if is_malicious then
      let a := pyChoice botAgents "" dev0.2
      (a.1, "web", a.2)
    else
      let a := pyChoice (userAgentsFor dev0.1) "" dev0.2
      (a.1, dev0.1, a.2)
  let hx := uuidHex16 sid.2
  ({ user_id := user_id, ip_address := ip_address, session_id := sid.1,
     device_type := agentDev.2.1, user_agent := agentDev.1,
     is_malicious := is_malicious,
     auth_token_id := "token_" ++ hx.1 }, agentDev.2.2, hx.2)

/-- `generate_event` (generate-test-data.py lines 93-146).  Python evaluates
the dict literal first (uuid draw for `event_id`, then the `randint(1, 100)`
feeding `path.format` — drawn whether or not the template mentions `id`),
then adds the truthiness-guarded optional fields, then the 30%-probability
query string, then the action-specific `data` payload (whose JSON text is
abbreviated to a key=value rendering here; no property below depends on
it). -/
def generate_event (action : String) (status : Option String) (user : UserBehavior)
    (store_id : String) (path : String) (timestamp : Int)
    (include_session include_user : Bool) (r : Rand) (u : UStream) :
    Event × Rand × UStream :=
  let eid := generate_uuid_v7 u
  let pid := pyRandint 1 100 r
  let fpath := pyFormatPath path store_id pid.1
  let qdraw := pyRandomUnit pid.2
  let qres : Option String × Rand :=
    if qdraw.1 > 700000 then
      let pg := pyRandint 1 10 qdraw.2
      let lim := pyChoice [(10 : Int), 20, 50] 10 pg.2
      (some ("page=" ++ toString pg.1 ++ "&limit=" ++ toString lim.1), lim.2)
    else (none, qdraw.2)
  let dres : Option String × Rand :=
    if action = "e_token_created" then
      (some ("e_token_expiry=" ++ toString (timestamp + 15 * 60000) ++
             ";return_url=https://api.example.com" ++ fpath), qres.2)
    else if action = "view_books" || action = "view_book_detail" then
      let cat := pyChoice ["fiction", "non-fiction", "science", "programming"] "fiction" qres.2
      let bid := pyRandint 1 100 cat.2
      (some ("category=" ++ cat.1 ++ ";book_id=" ++ toString bid.1), bid.2)
    else (none, qres.2)
  ({ event_id := eid.1
     action := some action
     timestamp := timestamp
     client_ip := some user.ip_address
     user_agent := some user.user_agent
     device_type := some user.device_type
     path := some fpath
     store_id := some store_id
     archived := false
     status := if truthyOptStr status then status else none
     session_id := if include_session && user.session_id ≠ "" then some user.session_id else none
     user_id := if include_user && truthyOptInt user.user_id then user.user_id else none
     auth_token_id := if user.auth_token_id ≠ "" then some user.auth_token_id else none
     query := qres.1
     data := dres.1
     email := none }, dres.2, eid.2)

/-! ## `generate-test-data.py`: the three traffic archetypes -/

/-- The paths with `"books"` in them, as selected by
`random.choice([p for p in PATHS if "books" in p])`. -/
def browsePathPool : List String :=
  PATHS.filter (fun p => strContainsSub "books".toList p.toList)

/-- The browse loop of `generate_normal_user_journey` (lines 181-192): `n`
iterations, each choosing an action and a path, emitting an event, and
advancing the clock by 3-30 seconds.  Returns the events, the clock after
the loop, and the stream states. -/
def browseLoop (user : UserBehavior) (store_id : String) :
    Nat → Int → Rand → UStream → List Event × Int × Rand × UStream
  | 0, t, r, u => ([], t, r, u)
  | k + 1, t, r, u =>
    let act := pyChoice ["view_books", "view_book_detail"] "view_books" r
    let p := pyChoice browsePathPool "" act.2
    let ev := generate_event act.1 none user store_id p.1 t true true p.2 u
    let g := pyRandint 3 30 ev.2.1
    let rest := browseLoop user store_id k (t + g.1 * 1000) g.2 ev.2.2
    (ev.1 :: rest.1, rest.2.1, rest.2.2.1, rest.2.2.2)

/-- `generate_normal_user_journey` (generate-test-data.py lines 149-221). -/
def generate_normal_user_journey (user : UserBehavior) (start_time : Int)
    (store_id : String) (r : Rand) (u : UStream) : List Event × Rand × UStream :=
  let e1 := generate_event "e_token_created" none user store_id
      "/api/v1/\x7bstore\x7d/books" start_time false false r u
  let g1 := pyRandint 1 5 e1.2.1
  let t1 := start_time + g1.1 * 1000
  let e2 := generate_event "auth_token_validated" (some "pass") user store_id
      "/api/v1/\x7bstore\x7d/books" t1 true true g1.2 e1.2.2
  let g2 := pyRandint 2 10 e2.2.1
  let t2 := t1 + g2.1 * 1000
  let nb := pyRandint 2 5 g2.2
  let browse := browseLoop user store_id nb.1.toNat t2 nb.2 e2.2.2
  let d1 := pyRandomUnit browse.2.2.1
  let cart : List Event × Int × Rand × UStream :=
    if d1.1 > 300000 then
      let e6 := generate_event "add_to_cart" none user store_id
          "/api/v1/\x7bstore\x7d/cart/add" browse.2.1 true true d1.2 browse.2.2.2
      let g3 := pyRandint 2 10 e6.2.1
      ([e6.1], browse.2.1 + g3.1 * 1000, g3.2, e6.2.2)
    else ([], browse.2.1, d1.2, browse.2.2.2)
  let d2 := pyRandomUnit cart.2.2.1
  let checkout : List Event × Rand × UStream :=
    if d2.1 > 600000 then
      let e7 := generate_event "checkout" none user store_id
          "/api/v1/\x7bstore\x7d/checkout" cart.2.1 true true d2.2 cart.2.2.2
      ([e7.1], e7.2.1, e7.2.2)
    else ([], d2.2, cart.2.2.2)
  (e1.1 :: e2.1 :: (browse.1 ++ cart.1 ++ checkout.1), checkout.2.1, checkout.2.2)

/-- The attempt loop of `generate_brute_force_attack` (lines 237-248): `n`
failed validations, the clock advancing 100-2000 **milliseconds** after
each. -/
def bruteEvents (attacker : UserBehavior) (store_id : String) :
    Nat → Int → Rand → UStream → List Event × Rand × UStream
  | 0, _, r, u => ([], r, u)
  | k + 1, t, r, u =>
    let ev := generate_event "auth_token_validated" (some "fail") attacker store_id
        "/api/v1/\x7bstore\x7d/auth/login" t false false r u
    let g := pyRandint 100 2000 ev.2.1
    let rest := bruteEvents attacker store_id k (t + g.1) g.2 ev.2.2
    (ev.1 :: rest.1, rest.2.1, rest.2.2)

/-- `generate_brute_force_attack` (generate-test-data.py lines 224-250): a
malicious `UserBehavior` with `user_id=None`, the user agent overwritten to
the fixed bot string, then `randint(15, 30)` failed attempts. -/
def generate_brute_force_attack (attacker_ip : String) (start_time : Int)
    (store_id : String) (r : Rand) (u : UStream) : List Event × Rand × UStream :=
  let mk := UserBehavior.init none attacker_ip true none r u
  let attacker := { mk.1 with user_agent := "Python-Requests/2.28.1" }
  let n := pyRandint 15 30 mk.2.1
  bruteEvents attacker store_id n.1.toNat start_time n.2 mk.2.2

/-- `generate_session_sharing_pattern` (generate-test-data.py lines
253-295): a shared session/token pair, user 1 authenticating, then 30-120
seconds later user `user_id + 1000` acting under the same session. -/
def generate_session_sharing_pattern (user_id : Int) (start_time : Int)
    (store_id : String) (r : Rand) (u : UStream) : List Event × Rand × UStream :=
  let sid := uuid4 u
  let hx := uuidHex16 sid.2
  let shared_token_id := "token_" ++ hx.1
  let ip1 := generate_ip_address r
  let mk1 := UserBehavior.init (some user_id) ip1.1 false none ip1.2 hx.2
  let user1 := { mk1.1 with session_id := sid.1, auth_token_id := shared_token_id }
  let e1 := generate_event "auth_token_validated" (some "pass") user1 store_id
      "/api/v1/\x7bstore\x7d/books" start_time true true mk1.2.1 mk1.2.2
  let g := pyRandint 30 120 e1.2.1
  let t2 := start_time + g.1 * 1000
  let ip2 := generate_ip_address g.2
  let mk2 := UserBehavior.init (some (user_id + 1000)) ip2.1 false none ip2.2 e1.2.2
  let user2 := { mk2.1 with session_id := sid.1, auth_token_id := shared_token_id }
  let e2 := generate_event "view_books" none user2 store_id
      "/api/v1/\x7bstore\x7d/books" t2 true true mk2.2.1 mk2.2.2
  ([e1.1, e2.1], e2.2.1, e2.2.2)

/-! ## `generate-test-data.py`: the corpus pipeline (`generate_test_data`) -/

/-- The normal-traffic loop (lines 315-328): `while len(events) < normal_users`,
append one journey per fresh user id.  Termination: every journey contains at
least its first two events. -/
def genNormalJourneys (target : Nat) (start_date : Int) (acc : List Event) (uid : Int)
    (r : Rand) (u : UStream) : List Event × Rand × UStream :=
  if _hlt : acc.length < target then
    let ip := generate_ip_address r
    let mk := UserBehavior.init (some uid) ip.1 false none ip.2 u
    let store := pyChoice STORES "store-1" mk.2.1
    let secs := pyRandint 0 (45 * 24 * 3600) store.2
    let ts := start_date + secs.1 * 1000
    let j := generate_normal_user_journey mk.1 ts store.1 secs.2 mk.2.2
    genNormalJourneys target start_date (acc ++ j.1) (uid + 1) j.2.1 j.2.2
  else (acc, r, u)
termination_by target - acc.length
decreasing_by
  simp only [List.length_append]
  refine Nat.sub_lt_sub_left _hlt ?_
  refine Nat.lt_add_of_pos_right ?_
  simp [generate_normal_user_journey]

/-- The brute-force loop (lines 332-345): `while attack_count < brute_force`,
accumulating `len(attack)` into the counter.  Termination: every attack has
`randint(15, 30) ≥ 15 > 0` events. -/
def genBruteLoop (brute : Nat) (start_date : Int) (acc : List Event) (attackCount : Nat)
    (r : Rand) (u : UStream) : List Event × Rand × UStream :=
  if _hlt : attackCount < brute then
    let ip := generate_ip_address r
    let store := pyChoice STORES "store-1" ip.2
    let secs := pyRandint 0 (45 * 24 * 3600) store.2
    let ts := start_date + secs.1 * 1000
    let atk := generate_brute_force_attack ip.1 ts store.1 secs.2 u
    genBruteLoop brute start_date (acc ++ atk.1) (attackCount + atk.1.length) atk.2.1 atk.2.2
  else (acc, r, u)
termination_by brute - attackCount
decreasing_by
  have hlen : ∀ (att : UserBehavior) (sid : String) (n : Nat) (t : Int) (d : Rand) (e : UStream),
      (bruteEvents att sid n t d e).1.length = n := by
    intro att sid n
    induction n with
    | zero => intro t d e; simp [bruteEvents]
    | succ k ih => intro t d e; simp [bruteEvents, ih]
  refine Nat.sub_lt_sub_left _hlt ?_
  refine Nat.lt_add_of_pos_right ?_
  simp only [generate_brute_force_attack, hlen, pyRandint]
  omega

/-- The session-sharing loop (lines 349-359). -/
def genSharingLoop (target : Nat) (start_date : Int) (acc : List Event) (sharingCount : Nat)
    (r : Rand) (u : UStream) : List Event × Rand × UStream :=
  if _hlt : sharingCount < target then
    let base := pyRandint 1000 5000 r
    let store := pyChoice STORES "store-1" base.2
    let secs := pyRandint 0 (45 * 24 * 3600) store.2
    let ts := start_date + secs.1 * 1000
    let sh := generate_session_sharing_pattern base.1 ts store.1 secs.2 u
    genSharingLoop target start_date (acc ++ sh.1) (sharingCount + sh.1.length) sh.2.1 sh.2.2
  else (acc, r, u)
termination_by target - sharingCount
decreasing_by
  refine Nat.sub_lt_sub_left _hlt ?_
  refine Nat.lt_add_of_pos_right ?_
  simp [generate_session_sharing_pattern]

/-- `generate_test_data` (generate-test-data.py lines 298-368).  `now` is the
wall clock (`datetime.now()`); the 85/10/5 split truncates as Python's
`int(count * 0.85)` does (float rounding corner cases aside, which no stated
property depends on).  The final steps sort the accumulated corpus by
timestamp and trim to `count`. -/
def generate_test_data (count : Nat) (now : Int) (r : Rand) (u : UStream) : List Event :=
  let start_date := now - 45 * 86400000
  let normal_users := count * 85 / 100
  let brute_force := count * 10 / 100
  let session_sharing := count * 5 / 100
  let s1 := genNormalJourneys normal_users start_date [] 1 r u
  let s2 := genBruteLoop brute_force start_date s1.1 0 s1.2.1 s1.2.2
  let s3 := genSharingLoop session_sharing start_date s2.1 0 s2.2.1 s2.2.2
  (sortByTimestamp s3.1).take count

/-! ## `scenario.py`: the declarative scenario fixture generator

The YAML document is modelled as structured data; `.get(key, default)`
defaults from the Python code are the Lean field defaults. -/

/-- One event template of a scenario group. -/
structure EventConfig where
  timestamp_offset_minutes : Int := 0
  action : Option String := none
  status : Option String := none
  client_ip : Option String := none
  user_agent : Option String := none
  device_type : Option String := none
  path : Option String := none
  query : Option String := none
  user_id : Option Int := none
  email : Option String := none
  store_id : Option String := none
  data : Option String := none
deriving DecidableEq, Repr

/-- One named scenario group: `session_id`/`auth_token_id` are read from the
scenario level, the templates from its `events` list. -/
structure ScenarioGroup where
  session_id : Option String := none
  auth_token_id : Option String := none
  events : List EventConfig := []
deriving DecidableEq, Repr

/-- `generator_config.noise_events`. -/
structure NoiseConfig where
  enabled : Bool := false
  count : Nat := 0
deriving DecidableEq, Repr

/-- `fixture_config.query_generation`: `probabilityMicro` is the probability
scaled to millionths (`0.2` becomes `200000`). -/
structure QueryGenConfig where
  enabled : Bool := false
  probabilityMicro : Nat := 0
  templates : List (String × List String) := []
deriving DecidableEq, Repr

structure NoiseStore where
  id : String
deriving DecidableEq, Repr

structure NoiseEndpoint where
  path : String
  action : String
deriving DecidableEq, Repr

structure NoiseUser where
  user_id : Int
  email : String
deriving DecidableEq, Repr

structure NoiseIP where
  address : String
deriving DecidableEq, Repr

structure NoiseDevice where
  device_type : String
  user_agent : String
deriving DecidableEq, Repr

/-- `fixture_config` with the `.get` defaults of
`generate_noise_events` (scenario.py lines 250-259); `start = none` means
the document has no `time_range.start` and the generator falls back to the
current instant. -/
structure FixtureConfig where
  start : Option Int := none
  duration_hours : Nat := 2
  stores : List NoiseStore := [{ id := "store-1" }]
  endpoints : List NoiseEndpoint := [{ path := "/api/v1/\x7bstore\x7d/books", action := "view_books" }]
  users : List NoiseUser := [{ user_id := 9999, email := "noise@example.com" }]
  ips : List NoiseIP := [{ address := "192.168.1.1" }]
  devices : List NoiseDevice := [{ device_type := "web", user_agent := "Mozilla/5.0" }]
deriving DecidableEq, Repr

/-- The loaded scenario YAML document (the slices the generator reads);
`jitter_seconds` is `generator_config.timestamp_generation.jitter_seconds`,
default 5. -/
structure ScenarioData where
  scenarios : List ScenarioGroup := []
  jitter_seconds : Nat := 5
  noise : NoiseConfig := {}
  fixture : FixtureConfig := {}
  query_gen : QueryGenConfig := {}
deriving DecidableEq, Repr

/-- `ScenarioGenerator.parse_timestamp` (scenario.py lines 73-95): base +
offset minutes + a `randint(-j, j)` second jitter when `j > 0`. -/
def parse_timestamp (base_time : Int) (offset_minutes : Int) (jitter_seconds : Nat)
    (r : Rand) : Int × Rand :=
  if 0 < jitter_seconds then
    let j := pyRandint (-(jitter_seconds : Int)) (jitter_seconds : Int) r
    (base_time + offset_minutes * 60000 + j.1 * 1000, j.2)
  else
    (base_time + offset_minutes * 60000, r)

/-- `query_config.templates.get(action, [])` — `action` may be `None`, which
matches no template key. -/
def lookupTemplates (templates : List (String × List String)) :
    Option String → List String
  | none => []
  | some a => (((templates.find? (fun p => p.1 == a)).map Prod.snd).getD [])

/-- `ScenarioGenerator.generate_query_string` (scenario.py lines 97-133): an
existing truthy query wins; otherwise, when generation is enabled, a
`random.random() > probability` draw decides against generation, and a
template for the action is chosen if any exist. -/
def generate_query_string (data : ScenarioData) (action : Option String)
    (existing_query : Option String) (r : Rand) : Option String × Rand :=
  if truthyOptStr existing_query then (existing_query, r)
  else if !data.query_gen.enabled then (none, r)
  else
    let d := pyRandomUnit r
    if d.1 > data.query_gen.probabilityMicro then (none, d.2)
    else
      let ts := lookupTemplates data.query_gen.templates action
      if ts.isEmpty then (none, d.2)
      else
        let q := pyChoice ts "" d.2
        (some q.1, q.2)

/-- `ScenarioGenerator.generate_event` (scenario.py lines 135-191): jittered
timestamp, fresh event id, query-string generation, then the event dict with
its `None` values removed (`Option` fields model exactly that). -/
def scenarioGenerateEvent (data : ScenarioData) (ec : EventConfig) (sc : ScenarioGroup)
    (base_time : Int) (jitter_seconds : Nat) (r : Rand) (u : UStream) :
    Event × Rand × UStream :=
  let ts := parse_timestamp base_time ec.timestamp_offset_minutes jitter_seconds r
  let eid := uuidV7Generate u
  let q := generate_query_string data ec.action ec.query ts.2
  ({ event_id := eid.1
     action := ec.action
     status := ec.status
     timestamp := ts.1
     client_ip := ec.client_ip
     user_agent := ec.user_agent
     device_type := ec.device_type
     path := ec.path
     query := q.1
     session_id := sc.session_id
     user_id := ec.user_id
     email := ec.email
     store_id := ec.store_id
     auth_token_id := sc.auth_token_id
     data := ec.data
     archived := false }, q.2, eid.2)

/-- The inner loop of `generate_from_scenarios` over one group's event
templates. -/
def genGroupEvents (data : ScenarioData) (sc : ScenarioGroup) (base_time : Int)
    (jitter_seconds : Nat) :
    List EventConfig → Rand → UStream → List Event × Rand × UStream
  | [], r, u => ([], r, u)
  | ec :: rest, r, u =>
    let ev := scenarioGenerateEvent data ec sc base_time jitter_seconds r u
    let evs := genGroupEvents data sc base_time jitter_seconds rest ev.2.1 ev.2.2
    (ev.1 :: evs.1, evs.2.1, evs.2.2)

/-- The outer loop of `generate_from_scenarios` (scenario.py lines 193-231)
over the scenario groups. -/
def genScenarios (data : ScenarioData) (base_time : Int) (jitter_seconds : Nat) :
    List ScenarioGroup → Rand → UStream → List Event × Rand × UStream
  | [], r, u => ([], r, u)
  | sc :: rest, r, u =>
    let evs := genGroupEvents data sc base_time jitter_seconds sc.events r u
    let more := genScenarios data base_time jitter_seconds rest evs.2.1 evs.2.2
    (evs.1 ++ more.1, more.2.1, more.2.2)

/-- One iteration body plus loop of `generate_noise_events` (scenario.py
lines 233-303): a random minute offset in the configured duration, a
`parse_timestamp` call with a hard-coded 5-second jitter, five pool choices,
query generation, and a fresh event id and session id (in that order). -/
def genNoise (data : ScenarioData) (base_time : Int) :
    Nat → Rand → UStream → List Event × Rand × UStream
  | 0, r, u => ([], r, u)
  | k + 1, r, u =>
    let offm := pyRandint 0 (data.fixture.duration_hours * 60 : Nat) r
    let ts := parse_timestamp base_time offm.1 5 offm.2
    let store := pyChoice data.fixture.stores { id := "store-1" } ts.2
    let endp := pyChoice data.fixture.endpoints
        { path := "/api/v1/\x7bstore\x7d/books", action := "view_books" } store.2
    let usr := pyChoice data.fixture.users { user_id := 9999, email := "noise@example.com" } endp.2
    let ip := pyChoice data.fixture.ips { address := "192.168.1.1" } usr.2
    let dev := pyChoice data.fixture.devices { device_type := "web", user_agent := "Mozilla/5.0" } ip.2
    let q := generate_query_string data (some endp.1.action) none dev.2
    let eid := uuidV7Generate u
    let nsid := uuidV7Generate eid.2
    let ev : Event :=
      { event_id := eid.1
        action := some endp.1.action
        timestamp := ts.1
        client_ip := some ip.1.address
        user_agent := some dev.1.user_agent
        device_type := some dev.1.device_type
        path := some ⟨strReplace '\x7b' "store\x7d".toList store.1.id.toList endp.1.path.toList⟩
        query := q.1
        session_id := some nsid.1
        user_id := some usr.1.user_id
        email := some usr.1.email
        store_id := some store.1.id
        archived := false }
    let rest := genNoise data base_time k q.2 nsid.2
    (ev :: rest.1, rest.2.1, rest.2.2)

/-- `ScenarioGenerator.sort_events` (scenario.py lines 305-310). -/
def sort_events (events : List Event) : List Event := sortByTimestamp events

/-- `ScenarioGenerator.generate` (scenario.py lines 331-337) up to the file
write: template instantiation, optional noise, then the final sort.  An
empty `scenarios` list raises `ValueError("No scenarios found in YAML
file")`, modelled as `none`.  `now` is the current instant used when the
document has no `time_range.start`. -/
def scenarioGenerate (data : ScenarioData) (now : Int) (r : Rand) (u : UStream) :
    Option (List Event) :=
  if data.scenarios.isEmpty then none
  else
    let base_time := data.fixture.start.getD now
    let evs := genScenarios data base_time data.jitter_seconds data.scenarios r u
    let noiseCount := if data.noise.enabled then data.noise.count else 0
    let noise := genNoise data base_time noiseCount evs.2.1 evs.2.2
    some (sort_events (evs.1 ++ noise.1))

/-! ## `assertions.py`: the assertion runner

The graph store is an external collaborator, so the outcome of executing an
assertion's query (a record count, or a driver exception) is part of the
input. -/

/-- Result of `session.run(query)` + `len(list(result))`. -/
inductive QueryOutcome where
  | ok (record_count : Nat)
  | failed
deriving DecidableEq, Repr

/-- One entry of `abuse_assertions`: `query` (`""` both for a missing and an
empty query, which Python treats alike via falsiness), the
`expected_result_count` value, and what executing the query would yield. -/
structure Assertion where
  query : String := ""
  expected : PyVal := .vint 0
  outcome : QueryOutcome := .ok 0
deriving DecidableEq, Repr

/-- The exceptions the `try` block of `run_assertion` can see. -/
inductive AssertionErr where
  | parseErr
  | unknownOp
  | queryErr
deriving DecidableEq, Repr

/-- The `try` body of `AssertionRunner.run_assertion` (assertions.py lines
163-201): parse the expectation, execute the query and count its records,
apply the comparator. -/
def runAssertionBody (a : Assertion) : Except AssertionErr Bool :=
  match parse_expected_count a.expected with
  | .ok op expected_value =>
    match a.outcome with
    | .ok actual_count =>
      match check_assertion op actual_count expected_value with
      | .ok b => .ok b
      | .error _ => .error .unknownOp
    | .failed => .error .queryErr
  | _ => .error .parseErr

/-- `AssertionRunner.run_assertion` (assertions.py lines 144-210): a falsy
query is reported as a skip and returns `False`; any exception from the body
is caught by the enclosing `except`, printed with the assertion's
description, and turns into `False`.  The caller always receives a boolean
verdict. -/
def run_assertion (a : Assertion) : Bool :=
  if a.query = "" then false
  else
    match runAssertionBody a with
    | .ok b => b
    | .error _ => false

/-- The aggregate report of a scenario run. -/
structure RunSummary where
  total : Nat
  passed : Nat
  failed : Nat
  success : Bool
deriving DecidableEq, Repr

/-- `AssertionRunner.run_all_assertions` (assertions.py lines 212-257): an
empty list prints "No abuse_assertions found" and returns `False` before any
counting; otherwise every assertion runs in order and the run succeeds iff
`failed_assertions == 0`. -/
def run_all_assertions (assertions : List Assertion) : RunSummary :=
  if assertions.isEmpty then
    { total := 0, passed := 0, failed := 0, success := false }
  else
    let passed := (assertions.filter (fun a => run_assertion a)).length
    let failed := (assertions.filter (fun a => !run_assertion a)).length
    { total := assertions.length, passed := passed, failed := failed,
      success := failed == 0 }

/-- The tail of `main` (assertions.py lines 319-325): once the scenario is
loaded and the connection verified, `sys.exit(0 if success else 1)`. -/
def mainExitCode (assertions : List Assertion) : Nat :=
  if (run_all_assertions assertions).success then 0 else 1

/-! ## Small syntactic predicates used by the theorem statements -/

/-- A nonempty run of ASCII digits. -/
def allDigits (l : List Char) : Prop := l ≠ [] ∧ ∀ c ∈ l, c.isDigit

instance (l : List Char) : Decidable (allDigits l) := by
  unfold allDigits
  infer_instance

/-- A (possibly empty) run of whitespace. -/
def allSpaces (l : List Char) : Prop := ∀ c ∈ l, pyIsSpace c

instance (l : List Char) : Decidable (allSpaces l) := by
  unfold allSpaces
  infer_instance

/-- The numeric value of a digit run. -/
def digitsNat (l : List Char) : Nat := l.foldl (fun a c => 10 * a + digitVal c) 0

/-- The expected-count forms accepted by the specification's grammar, read
off its words: "a bare integer (interpreted as exact-equality `==`), or a
string prefixed with one of `>=`, `>`, `<=`, `<` followed by an integer, or
a `~N-M` range shorthand"; a bare integer in string spelling is also
accepted (the fallback documented by the spec's own `2 → exact 2`
example). -/
def claimAcceptedForm : PyVal → Bool
  | .vint _ => true
  | .vstr s =>
    (pyInt s).isSome
    || (strStartsWith s ">=".toList && (pyInt (s.drop 2)).isSome)
    || (strStartsWith s ">".toList && (pyInt (s.drop 1)).isSome)
    || (strStartsWith s "<=".toList && (pyInt (s.drop 2)).isSome)
    || (strStartsWith s "<".toList && (pyInt (s.drop 1)).isSome)
    || (match s with
        | '~' :: rest =>
          let n := rest.takeWhile (fun c => c ≠ '-')
          let m := (rest.dropWhile (fun c => c ≠ '-')).tail
          decide (allDigits n) && decide (allDigits m)
        | _ => false)

/-- Key-insertion step of an entity upsert, as seen at the natural-key
level: an absent key is appended, a present one leaves the key list
unchanged. -/
def insertKeyStep {α : Type} [DecidableEq α] (ks : List α) (o : Option α) : List α :=
  match o with
  | some b => if b ∈ ks then ks else ks ++ [b]
  | none => ks

/-! # Theorems

First a set of helper lemmas about the string primitives, then one theorem
(plus witness / counterexample where applicable) per claim. -/

theorem dropWhile_append_of_ne_nil {p : Char → Bool} {a b : List Char}
    (h : a.dropWhile p ≠ []) : (a ++ b).dropWhile p = a.dropWhile p ++ b := by
  induction a with
  | nil => simp at h
  | cons c cs ih =>
    cases hc : p c with
    | true =>
      rw [List.cons_append, List.dropWhile_cons_of_pos hc,
          List.dropWhile_cons_of_pos hc]
      rw [List.dropWhile_cons_of_pos hc] at h
      exact ih h
    | false =>
      rw [List.cons_append, List.dropWhile_cons_of_neg (by simp [hc]),
          List.dropWhile_cons_of_neg (by simp [hc]), List.cons_append]

theorem lstrip_append_all_spaces {ws l : List Char} (h : allSpaces ws) :
    lstrip (ws ++ l) = lstrip l := by
  induction ws with
  | nil => simp
  | cons c cs ih =>
    have hc : pyIsSpace c := h c (by simp)
    rw [List.cons_append, lstrip, List.dropWhile_cons_of_pos hc]
    exact ih (fun x hx => h x (by simp [hx]))

theorem lstrip_cons_not_space {c : Char} {l : List Char} (h : pyIsSpace c = false) :
    lstrip (c :: l) = c :: l := by
  rw [lstrip, List.dropWhile_cons_of_neg (by simp [h])]

theorem rstrip_append_of_ne_nil {a b : List Char} (h : rstrip b ≠ []) :
    rstrip (a ++ b) = a ++ rstrip b := by
  unfold rstrip List.rdropWhile at *
  rw [List.reverse_append,
      dropWhile_append_of_ne_nil (by simpa using h),
      List.reverse_append, List.reverse_reverse]

theorem rstrip_eq_self_of_all {l : List Char} (h : ∀ c ∈ l, pyIsSpace c = false) :
    rstrip l = l := by
  unfold rstrip
  rw [List.rdropWhile_eq_self_iff]
  intro hl
  simpa using h _ (List.getLast_mem hl)

theorem pyStrip_eq_self_of_all {l : List Char} (h : ∀ c ∈ l, pyIsSpace c = false) :
    pyStrip l = l := by
  unfold pyStrip
  rw [rstrip_eq_self_of_all h]
  cases l with
  | nil => rfl
  | cons c cs => exact lstrip_cons_not_space (h c (by simp))

theorem lstrip_idem (l : List Char) : lstrip (lstrip l) = lstrip l :=
  List.dropWhile_idempotent pyIsSpace l

theorem rstrip_idem (l : List Char) : rstrip (rstrip l) = rstrip l :=
  List.rdropWhile_idempotent pyIsSpace l

theorem dropWhile_head_false {p : Char → Bool} {d : Char} {rest : List Char}
    (h : (d :: rest).dropWhile p = d :: rest) : p d = false := by
  cases hd : p d with
  | false => rfl
  | true =>
    rw [List.dropWhile_cons_of_pos hd] at h
    have hlen := congrArg List.length h
    have hle := (List.dropWhile_suffix (l := rest) p).length_le
    simp only [List.length_cons] at hlen
    omega

theorem rstrip_lstrip_of_rstripped {l : List Char} (h : rstrip l = l) :
    rstrip (lstrip l) = lstrip l := by
  unfold rstrip List.rdropWhile at h ⊢
  rw [List.reverse_eq_iff] at h ⊢
  have hpre : (lstrip l).reverse <+: l.reverse :=
    List.reverse_prefix.mpr (List.dropWhile_suffix pyIsSpace)
  rcases hrev : (lstrip l).reverse with _ | ⟨d, ds⟩
  · simp
  · rw [hrev] at hpre
    obtain ⟨t', ht'⟩ := hpre
    have hd : pyIsSpace d = false := by
      refine @dropWhile_head_false _ _ (ds ++ t') ?_
      rw [← ht'] at h
      simpa using h
    rw [List.dropWhile_cons_of_neg (by simp [hd])]

theorem pyStrip_idem (l : List Char) : pyStrip (pyStrip l) = pyStrip l := by
  unfold pyStrip
  rw [rstrip_lstrip_of_rstripped (rstrip_idem l), lstrip_idem]

theorem isPrefixOf_cons_of_ne {p c : Char} {ps cs : List Char} (h : c ≠ p) :
    (p :: ps).isPrefixOf (c :: cs) = false := by
  simp [List.isPrefixOf_cons₂]
  intro he
  exact absurd he.symm h

theorem strReplaceGo_skip_exact (p : Char) (ps repl : List Char) :
    ∀ (a rest : List Char),
      strReplaceGo p ps repl a.length (a ++ rest) = strReplaceGo p ps repl 0 rest := by
  intro a
  induction a with
  | nil => intro rest; rfl
  | cons x xs ih =>
    intro rest
    simp only [List.cons_append, List.length_cons]
    rw [strReplaceGo]
    exact ih rest

theorem strRemoveAll_not_mem {p : Char} {ps l : List Char} (h : p ∉ l) :
    strRemoveAll p ps l = l := by
  unfold strRemoveAll
  induction l with
  | nil => rfl
  | cons c cs ih =>
    have hc : c ≠ p := fun e => h (e ▸ List.mem_cons_self c cs)
    rw [strReplaceGo, if_neg (by simp [isPrefixOf_cons_of_ne hc]),
        ih (fun hm => h (List.mem_cons_of_mem _ hm))]

theorem strRemoveAll_head_match (p : Char) (ps rest : List Char) :
    strRemoveAll p ps (p :: (ps ++ rest)) = strRemoveAll p ps rest := by
  unfold strRemoveAll
  rw [strReplaceGo, if_pos, List.nil_append, strReplaceGo_skip_exact]
  rw [List.isPrefixOf_iff_prefix]
  rw [show p :: (ps ++ rest) = (p :: ps) ++ rest from rfl]
  exact List.prefix_append _ _

theorem takeWhile_append_of_all {p : Char → Bool} {a b : List Char}
    (h : ∀ x ∈ a, p x = true) : (a ++ b).takeWhile p = a ++ b.takeWhile p := by
  induction a with
  | nil => simp
  | cons c cs ih =>
    rw [List.cons_append, List.takeWhile_cons_of_pos (h c (by simp)), List.cons_append,
        ih (fun x hx => h x (by simp [hx]))]

theorem strHasChar_of_mem {c : Char} {l : List Char} (h : c ∈ l) :
    strHasChar c l = true := by
  simpa [strHasChar] using List.elem_eq_true_of_mem h

/-! Character-class facts used to discharge branch conditions. -/

theorem digit_not_space {c : Char} (h : c.isDigit = true) : pyIsSpace c = false := by
  cases hs : pyIsSpace c with
  | false => rfl
  | true =>
    exfalso
    simp only [pyIsSpace, Bool.or_eq_true, decide_eq_true_eq] at hs
    rcases hs with ((h1 | h1) | h1) | h1 <;> subst h1 <;> exact absurd h (by decide)

theorem digit_ne_symbols {c : Char} (h : c.isDigit = true) :
    c ≠ '>' ∧ c ≠ '<' ∧ c ≠ '~' ∧ c ≠ '=' ∧ c ≠ '-' ∧ c ≠ '+' := by
  refine ⟨?_, ?_, ?_, ?_, ?_, ?_⟩ <;> (intro he; subst he; exact absurd h (by decide))

theorem space_ne_symbols {c : Char} (h : pyIsSpace c = true) :
    c ≠ '>' ∧ c ≠ '<' ∧ c ≠ '~' ∧ c ≠ '=' ∧ c ≠ '-' ∧ c ≠ '+' := by
  simp only [pyIsSpace, Bool.or_eq_true, decide_eq_true_eq] at h
  refine ⟨?_, ?_, ?_, ?_, ?_, ?_⟩ <;>
    (intro he; subst he;
     rcases h with ((h1 | h1) | h1) | h1 <;> exact absurd h1 (by decide))

/-! Facts about `pyInt` on digit runs. -/

theorem pyDigitsCore_all_digits {l : List Char} (h : ∀ c ∈ l, c.isDigit = true) :
    ∀ acc : Nat, pyDigitsCore acc l = some (l.foldl (fun a c => 10 * a + digitVal c) acc) := by
  induction l with
  | nil => intro acc; simp [pyDigitsCore]
  | cons c cs ih =>
    intro acc
    have hc : c.isDigit = true := h c (by simp)
    rw [pyDigitsCore.eq_def]
    dsimp only
    rw [if_pos hc, ih (fun x hx => h x (by simp [hx])), List.foldl_cons]

theorem pyIntCore_digits {l : List Char} (h : allDigits l) :
    pyIntCore l = some ((digitsNat l : Nat) : Int) := by
  obtain ⟨hne, hd⟩ := h
  cases l with
  | nil => exact absurd rfl hne
  | cons c cs =>
    have hc : c.isDigit = true := hd c (by simp)
    have hcs : ∀ x ∈ cs, x.isDigit = true := fun x hx => hd x (by simp [hx])
    obtain ⟨_, _, _, _, _, hplus⟩ := digit_ne_symbols hc
    have hminus := (digit_ne_symbols hc).2.2.2.2.1
    rw [pyIntCore.eq_def]
    split
    · rename_i heq
      exact absurd heq (by simp)
    · rename_i c' cs' heq
      obtain ⟨h1, _⟩ := List.cons.inj heq
      exact absurd h1 hplus
    · rename_i c' cs' heq
      obtain ⟨h1, _⟩ := List.cons.inj heq
      exact absurd h1 hminus
    · rename_i c' cs' _ _ heq
      obtain ⟨h1, h2⟩ := List.cons.inj heq
      subst h1
      subst h2
      rw [if_pos hc, pyDigitsCore_all_digits hcs]
      simp [digitsNat, digitVal]

theorem pyInt_digits {l : List Char} (h : allDigits l) :
    pyInt l = some ((digitsNat l : Nat) : Int) := by
  rw [pyInt, pyStrip_eq_self_of_all (fun c hc => digit_not_space (h.2 c hc)),
      pyIntCore_digits h]

theorem strHasChar_eq_false_of_not_mem {c : Char} {l : List Char} (h : c ∉ l) :
    strHasChar c l = false := by
  cases hb : strHasChar c l with
  | false => rfl
  | true =>
    exfalso
    refine h ?_
    simpa [strHasChar] using hb

theorem pyInt_pyStrip (s : List Char) : pyInt (pyStrip s) = pyInt s := by
  unfold pyInt
  rw [pyStrip_idem]

theorem pyIntCore_some_head {l : List Char} {v : Int} (h : pyIntCore l = some v) :
    ∃ c cs, l = c :: cs ∧ (c = '+' ∨ c = '-' ∨ c.isDigit = true) := by
  rw [pyIntCore.eq_def] at h
  split at h
  · exact absurd h (by simp)
  · rename_i c cs
    exact ⟨'+', c :: cs, rfl, Or.inl rfl⟩
  · rename_i c cs
    exact ⟨'-', c :: cs, rfl, Or.inr (Or.inl rfl)⟩
  · rename_i c cs _ _
    split at h
    · rename_i hd
      exact ⟨c, cs, rfl, Or.inr (Or.inr hd)⟩
    · exact absurd h (by simp)

/-- When the stripped expression starts with none of the operator characters,
`parse_expected_count` reaches its final plain-integer attempt. -/
theorem parse_expected_count_fallback {s : List Char} {c : Char} {cs : List Char}
    (he : pyStrip s = c :: cs) (h1 : c ≠ '>') (h2 : c ≠ '<') (h3 : c ≠ '~') :
    parse_expected_count (.vstr s) =
      (match pyInt s with
       | some v => .ok "==".toList v
       | none => .errNamed s) := by
  have t1 : strStartsWith (c :: cs) ">=".toList = false := isPrefixOf_cons_of_ne h1
  have t2 : strStartsWith (c :: cs) ">".toList = false := isPrefixOf_cons_of_ne h1
  have t3 : strStartsWith (c :: cs) "<=".toList = false := isPrefixOf_cons_of_ne h2
  have t4 : strStartsWith (c :: cs) "<".toList = false := isPrefixOf_cons_of_ne h2
  have t5 : strStartsWith (c :: cs) "~".toList = false := isPrefixOf_cons_of_ne h3
  rw [parse_expected_count]
  dsimp only
  rw [he, t1, t2, t3, t4, t5]
  simp only [Bool.false_eq_true, if_false, Bool.false_and]
  rw [← he, pyInt_pyStrip]

/-- **C10.** The fallback path of `parse_expected_count` accepts any string
that parses as a plain integer as exact-equality — the string `"2"` behaves
like the bare integer `2` — while a `~N` shorthand without a `-M` part falls
through the range branch and raises the `ValueError` that names the
expression, so only dash-carrying `~N-M` strings are read as at-least-N. -/
theorem c10_parse_fallback_and_bare_tilde :
    (∀ (s : List Char) (v : Int), pyInt s = some v →
        parse_expected_count (.vstr s) = .ok "==".toList v)
  ∧ parse_expected_count (.vstr "2".toList) = .ok "==".toList 2
  ∧ (∀ nds : List Char, allDigits nds →
        parse_expected_count (.vstr ('~' :: nds)) = .errNamed ('~' :: nds)) := by
  have main : ∀ (s : List Char) (v : Int), pyInt s = some v →
      parse_expected_count (.vstr s) = .ok "==".toList v := by
    intro s v hv
    obtain ⟨c, cs, he, hc⟩ := pyIntCore_some_head (l := pyStrip s) hv
    have h123 : c ≠ '>' ∧ c ≠ '<' ∧ c ≠ '~' := by
      rcases hc with h | h | h
      · subst h; exact ⟨by decide, by decide, by decide⟩
      · subst h; exact ⟨by decide, by decide, by decide⟩
      · obtain ⟨a, b, cne, _⟩ := digit_ne_symbols h
        exact ⟨a, b, cne⟩
    rw [parse_expected_count_fallback he h123.1 h123.2.1 h123.2.2, hv]
  refine ⟨main, main _ 2 (by decide), ?_⟩
  intro nds hd
  have hall : ∀ x ∈ ('~' :: nds), pyIsSpace x = false := by
    intro x hx
    rcases List.mem_cons.mp hx with h | h
    · subst h; decide
    · exact digit_not_space (hd.2 x h)
  have hstrip : pyStrip ('~' :: nds) = '~' :: nds := pyStrip_eq_self_of_all hall
  have hndsnospace : ∀ x ∈ nds, pyIsSpace x = false :=
    fun x hx => digit_not_space (hd.2 x hx)
  have t1 : strStartsWith ('~' :: nds) ">=".toList = false := isPrefixOf_cons_of_ne (by decide)
  have t2 : strStartsWith ('~' :: nds) ">".toList = false := isPrefixOf_cons_of_ne (by decide)
  have t3 : strStartsWith ('~' :: nds) "<=".toList = false := isPrefixOf_cons_of_ne (by decide)
  have t4 : strStartsWith ('~' :: nds) "<".toList = false := isPrefixOf_cons_of_ne (by decide)
  have t5 : strStartsWith ('~' :: nds) "~".toList = true := by
    simp [strStartsWith, List.isPrefixOf]
  have hrem : strRemoveAll '~' [] ('~' :: nds) = nds := by
    have : ('~' :: nds) = '~' :: ([] ++ nds) := by simp
    rw [this, strRemoveAll_head_match]
    exact strRemoveAll_not_mem (fun hm => by
      have := (digit_ne_symbols (hd.2 _ hm)).2.2.1
      exact this rfl)
  have hdash : strHasChar '-' (pyStrip (strRemoveAll '~' [] ('~' :: nds))) = false := by
    rw [hrem, pyStrip_eq_self_of_all hndsnospace]
    exact strHasChar_eq_false_of_not_mem (fun hm =>
      (digit_ne_symbols (hd.2 _ hm)).2.2.2.2.1 rfl)
  have hint : pyInt ('~' :: nds) = none := by
    rw [pyInt, hstrip, pyIntCore.eq_def]
    split
    · rename_i heq
      exact absurd heq (by simp)
    · rename_i heq
      exact absurd (List.cons.inj heq).1 (by decide)
    · rename_i heq
      exact absurd (List.cons.inj heq).1 (by decide)
    · rename_i c cs hne1 hne2 heq
      obtain ⟨h1, h2⟩ := List.cons.inj heq
      subst h1
      rw [if_neg (by decide)]
  rw [parse_expected_count]
  dsimp only
  rw [hstrip, t1, t2, t3, t4, t5, hdash]
  simp only [Bool.false_eq_true, if_false, Bool.and_false]
  rw [hint]

/-! Helper lemmas for the expected-count grammar branches. -/

theorem rstrip_ds {ds : List Char} (hds : allDigits ds) : rstrip ds = ds :=
  rstrip_eq_self_of_all (fun c hc => digit_not_space (hds.2 c hc))

theorem rstrip_append_ds {a ds : List Char} (hds : allDigits ds) :
    rstrip (a ++ ds) = a ++ ds := by
  rw [rstrip_append_of_ne_nil (by rw [rstrip_ds hds]; exact hds.1), rstrip_ds hds]

theorem lstrip_ds {ds : List Char} (hds : allDigits ds) : lstrip ds = ds := by
  obtain ⟨hne, hd⟩ := hds
  cases ds with
  | nil => exact absurd rfl hne
  | cons d tl => exact lstrip_cons_not_space (digit_not_space (hd d (by simp)))

theorem pyStrip_ws_ds {ws ds : List Char} (hws : allSpaces ws) (hds : allDigits ds) :
    pyStrip (ws ++ ds) = ds := by
  unfold pyStrip
  rw [rstrip_append_ds hds, lstrip_append_all_spaces hws, lstrip_ds hds]

theorem isPrefixOf_eq_ws_ds {ws ds : List Char} (hws : allSpaces ws) (hds : allDigits ds) :
    List.isPrefixOf ['='] (ws ++ ds) = false := by
  cases ws with
  | nil =>
    obtain ⟨hne, hd⟩ := hds
    cases ds with
    | nil => exact absurd rfl hne
    | cons d tl =>
      simpa using @isPrefixOf_cons_of_ne _ _ _ tl (digit_ne_symbols (hd d (by simp))).2.2.2.1
  | cons w tl =>
    simpa using
      @isPrefixOf_cons_of_ne _ _ _ (tl ++ ds) (space_ne_symbols (hws w (by simp))).2.2.2.1

theorem op_not_mem_ws_ds {ws ds : List Char} (hws : allSpaces ws) (hds : allDigits ds)
    {p : Char} (hp : p = '>' ∨ p = '<' ∨ p = '~') : p ∉ ws ++ ds := by
  intro hm
  rcases List.mem_append.mp hm with h | h
  · have hs := space_ne_symbols (hws _ h)
    rcases hp with rfl | rfl | rfl
    exacts [hs.1 rfl, hs.2.1 rfl, hs.2.2.1 rfl]
  · have hdd := digit_ne_symbols (hds.2 _ h)
    rcases hp with rfl | rfl | rfl
    exacts [hdd.1 rfl, hdd.2.1 rfl, hdd.2.2.1 rfl]

theorem pyStrip_op2_ws_ds {c₁ c₂ : Char} {ws ds : List Char}
    (h1 : pyIsSpace c₁ = false) (hws : allSpaces ws) (hds : allDigits ds) :
    pyStrip (c₁ :: c₂ :: (ws ++ ds)) = c₁ :: c₂ :: (ws ++ ds) := by
  unfold pyStrip
  have hr : rstrip (c₁ :: c₂ :: (ws ++ ds)) = c₁ :: c₂ :: (ws ++ ds) := by
    simpa using rstrip_append_ds (a := c₁ :: c₂ :: ws) hds
  rw [hr, lstrip_cons_not_space h1]

theorem pyStrip_op1_ws_ds {c₁ : Char} {ws ds : List Char}
    (h1 : pyIsSpace c₁ = false) (hws : allSpaces ws) (hds : allDigits ds) :
    pyStrip (c₁ :: (ws ++ ds)) = c₁ :: (ws ++ ds) := by
  unfold pyStrip
  have hr : rstrip (c₁ :: (ws ++ ds)) = c₁ :: (ws ++ ds) := by
    simpa using rstrip_append_ds (a := c₁ :: ws) hds
  rw [hr, lstrip_cons_not_space h1]

theorem parse_ge_spaced {ws ds : List Char} (hws : allSpaces ws) (hds : allDigits ds) :
    parse_expected_count (.vstr ('>' :: '=' :: (ws ++ ds))) =
      .ok ">=".toList ((digitsNat ds : Nat) : Int) := by
  have hstrip := @pyStrip_op2_ws_ds '>' '=' _ _ (by decide) hws hds
  have t1 : strStartsWith ('>' :: '=' :: (ws ++ ds)) ">=".toList = true := by
    simp [strStartsWith, List.isPrefixOf]
  have hrem : strRemoveAll '>' ['='] ('>' :: '=' :: (ws ++ ds)) = ws ++ ds := by
    rw [show ('>' :: '=' :: (ws ++ ds)) = '>' :: (['='] ++ (ws ++ ds)) by simp,
        strRemoveAll_head_match]
    exact strRemoveAll_not_mem (op_not_mem_ws_ds hws hds (Or.inl rfl))
  rw [parse_expected_count]
  dsimp only
  rw [hstrip, t1, if_pos rfl, hrem, pyStrip_ws_ds hws hds, pyInt_digits hds]

theorem parse_gt_spaced {ws ds : List Char} (hws : allSpaces ws) (hds : allDigits ds) :
    parse_expected_count (.vstr ('>' :: (ws ++ ds))) =
      .ok ">".toList ((digitsNat ds : Nat) : Int) := by
  have hstrip := @pyStrip_op1_ws_ds '>' _ _ (by decide) hws hds
  have t1 : strStartsWith ('>' :: (ws ++ ds)) ">=".toList = false := by
    have h2 := isPrefixOf_eq_ws_ds hws hds
    simp [strStartsWith, List.isPrefixOf_cons₂, h2]
  have t2 : strStartsWith ('>' :: (ws ++ ds)) ">".toList = true := by
    simp [strStartsWith, List.isPrefixOf]
  have hrem : strRemoveAll '>' [] ('>' :: (ws ++ ds)) = ws ++ ds := by
    rw [show ('>' :: (ws ++ ds)) = '>' :: ([] ++ (ws ++ ds)) by simp,
        strRemoveAll_head_match]
    exact strRemoveAll_not_mem (op_not_mem_ws_ds hws hds (Or.inl rfl))
  rw [parse_expected_count]
  dsimp only
  rw [hstrip, t1]
  rw [if_neg (by simp)]
  rw [t2, if_pos rfl, hrem, pyStrip_ws_ds hws hds, pyInt_digits hds]

theorem parse_le_spaced {ws ds : List Char} (hws : allSpaces ws) (hds : allDigits ds) :
    parse_expected_count (.vstr ('<' :: '=' :: (ws ++ ds))) =
      .ok "<=".toList ((digitsNat ds : Nat) : Int) := by
  have hstrip := @pyStrip_op2_ws_ds '<' '=' _ _ (by decide) hws hds
  have t1 : strStartsWith ('<' :: '=' :: (ws ++ ds)) ">=".toList = false :=
    isPrefixOf_cons_of_ne (by decide)
  have t2 : strStartsWith ('<' :: '=' :: (ws ++ ds)) ">".toList = false :=
    isPrefixOf_cons_of_ne (by decide)
  have t3 : strStartsWith ('<' :: '=' :: (ws ++ ds)) "<=".toList = true := by
    simp [strStartsWith, List.isPrefixOf]
  have hrem : strRemoveAll '<' ['='] ('<' :: '=' :: (ws ++ ds)) = ws ++ ds := by
    rw [show ('<' :: '=' :: (ws ++ ds)) = '<' :: (['='] ++ (ws ++ ds)) by simp,
        strRemoveAll_head_match]
    exact strRemoveAll_not_mem (op_not_mem_ws_ds hws hds (Or.inr (Or.inl rfl)))
  rw [parse_expected_count]
  dsimp only
  rw [hstrip, t1]
  rw [if_neg (by simp)]
  rw [t2]
  rw [if_neg (by simp)]
  rw [t3, if_pos rfl, hrem, pyStrip_ws_ds hws hds, pyInt_digits hds]

theorem parse_lt_spaced {ws ds : List Char} (hws : allSpaces ws) (hds : allDigits ds) :
    parse_expected_count (.vstr ('<' :: (ws ++ ds))) =
      .ok "<".toList ((digitsNat ds : Nat) : Int) := by
  have hstrip := @pyStrip_op1_ws_ds '<' _ _ (by decide) hws hds
  have t1 : strStartsWith ('<' :: (ws ++ ds)) ">=".toList = false :=
    isPrefixOf_cons_of_ne (by decide)
  have t2 : strStartsWith ('<' :: (ws ++ ds)) ">".toList = false :=
    isPrefixOf_cons_of_ne (by decide)
  have t3 : strStartsWith ('<' :: (ws ++ ds)) "<=".toList = false := by
    have h2 := isPrefixOf_eq_ws_ds hws hds
    simp [strStartsWith, List.isPrefixOf_cons₂, h2]
  have t4 : strStartsWith ('<' :: (ws ++ ds)) "<".toList = true := by
    simp [strStartsWith, List.isPrefixOf]
  have hrem : strRemoveAll '<' [] ('<' :: (ws ++ ds)) = ws ++ ds := by
    rw [show ('<' :: (ws ++ ds)) = '<' :: ([] ++ (ws ++ ds)) by simp,
        strRemoveAll_head_match]
    exact strRemoveAll_not_mem (op_not_mem_ws_ds hws hds (Or.inr (Or.inl rfl)))
  rw [parse_expected_count]
  dsimp only
  rw [hstrip, t1]
  rw [if_neg (by simp)]
  rw [t2]
  rw [if_neg (by simp)]
  rw [t3]
  rw [if_neg (by simp)]
  rw [t4, if_pos rfl, hrem, pyStrip_ws_ds hws hds, pyInt_digits hds]

theorem parse_tilde_range {nds mds : List Char} (hn : allDigits nds) (hm : allDigits mds) :
    parse_expected_count (.vstr ('~' :: (nds ++ '-' :: mds))) =
      .ok ">=".toList ((digitsNat nds : Nat) : Int) := by
  have hrest_nospace : ∀ x ∈ (nds ++ '-' :: mds), pyIsSpace x = false := by
    intro x hx
    rcases List.mem_append.mp hx with hx | hx
    · exact digit_not_space (hn.2 x hx)
    · rcases List.mem_cons.mp hx with rfl | hx
      · decide
      · exact digit_not_space (hm.2 x hx)
  have hstrip : pyStrip ('~' :: (nds ++ '-' :: mds)) = '~' :: (nds ++ '-' :: mds) := by
    refine pyStrip_eq_self_of_all ?_
    intro x hx
    rcases List.mem_cons.mp hx with rfl | hx
    · decide
    · exact hrest_nospace x hx
  have t1 : strStartsWith ('~' :: (nds ++ '-' :: mds)) ">=".toList = false :=
    isPrefixOf_cons_of_ne (by decide)
  have t2 : strStartsWith ('~' :: (nds ++ '-' :: mds)) ">".toList = false :=
    isPrefixOf_cons_of_ne (by decide)
  have t3 : strStartsWith ('~' :: (nds ++ '-' :: mds)) "<=".toList = false :=
    isPrefixOf_cons_of_ne (by decide)
  have t4 : strStartsWith ('~' :: (nds ++ '-' :: mds)) "<".toList = false :=
    isPrefixOf_cons_of_ne (by decide)
  have t5 : strStartsWith ('~' :: (nds ++ '-' :: mds)) "~".toList = true := by
    simp [strStartsWith, List.isPrefixOf]
  have hrem : strRemoveAll '~' [] ('~' :: (nds ++ '-' :: mds)) = nds ++ '-' :: mds := by
    rw [show ('~' :: (nds ++ '-' :: mds)) = '~' :: ([] ++ (nds ++ '-' :: mds)) by simp,
        strRemoveAll_head_match]
    refine strRemoveAll_not_mem ?_
    intro hmem
    rcases List.mem_append.mp hmem with hx | hx
    · exact (digit_ne_symbols (hn.2 _ hx)).2.2.1 rfl
    · rcases List.mem_cons.mp hx with he | hx
      · exact absurd he (by decide)
      · exact (digit_ne_symbols (hm.2 _ hx)).2.2.1 rfl
  have hrangestr : pyStrip (strRemoveAll '~' [] ('~' :: (nds ++ '-' :: mds))) =
      nds ++ '-' :: mds := by
    rw [hrem]
    exact pyStrip_eq_self_of_all hrest_nospace
  have hdash : strHasChar '-' (nds ++ '-' :: mds) = true :=
    strHasChar_of_mem (by simp)
  have htake : (nds ++ '-' :: mds).takeWhile (fun c => c ≠ '-') = nds := by
    rw [takeWhile_append_of_all (fun x hx => by
        simpa using (digit_ne_symbols (hn.2 x hx)).2.2.2.2.1)]
    rw [List.takeWhile_cons_of_neg (by simp)]
    simp
  rw [parse_expected_count]
  dsimp only
  rw [hstrip, t1]
  rw [if_neg (by simp)]
  rw [t2]
  rw [if_neg (by simp)]
  rw [t3]
  rw [if_neg (by simp)]
  rw [t4]
  rw [if_neg (by simp)]
  rw [hrangestr, t5, hdash]
  rw [if_pos (by simp)]
  rw [htake, pyInt_digits hn]

theorem parse_errNamed_of {s : List Char}
    (hhead : ∀ c, (pyStrip s).head? = some c → c ≠ '>' ∧ c ≠ '<' ∧ c ≠ '~')
    (hint : pyInt s = none) :
    parse_expected_count (.vstr s) = .errNamed s := by
  rcases he : pyStrip s with _ | ⟨c, cs⟩
  · have hint' : pyInt (pyStrip s) = none := by rw [pyInt_pyStrip]; exact hint
    rw [he] at hint'
    rw [parse_expected_count]
    dsimp only
    rw [he]
    simp only [strStartsWith, List.isPrefixOf, Bool.false_eq_true, if_false, Bool.false_and]
    rw [hint']
  · obtain ⟨h1, h2, h3⟩ := hhead c (by rw [he]; rfl)
    rw [parse_expected_count_fallback he h1 h2 h3, hint]

/-- **C1 (amended).** `parse_expected_count` maps a bare integer `n` to
`("==", n)`; maps a string of one of `>=`, `>`, `<=`, `<` followed
(optionally after spaces) by a digit run to that comparator with the
integer's value; maps a `~N-M` range string to at-least `(">=", N)` with the
upper bound `M` ignored; and raises the `ValueError` naming the offending
expression for every string that neither begins (after stripping) with one
of the comparator characters `>`, `<`, `~` nor parses as a plain integer.
(The claim's stronger form — *every* non-conforming input raises the naming
error — fails: comparator-prefixed strings strip *all* occurrences of the
operator token, so `">>5"` is accepted; see the counterexample.) -/
theorem c1_expected_count_grammar_amended :
    (∀ n : Int, parse_expected_count (.vint n) = .ok "==".toList n)
  ∧ (∀ ws ds : List Char, allSpaces ws → allDigits ds →
        parse_expected_count (.vstr (">=".toList ++ ws ++ ds)) =
          .ok ">=".toList ((digitsNat ds : Nat) : Int)
      ∧ parse_expected_count (.vstr (">".toList ++ ws ++ ds)) =
          .ok ">".toList ((digitsNat ds : Nat) : Int)
      ∧ parse_expected_count (.vstr ("<=".toList ++ ws ++ ds)) =
          .ok "<=".toList ((digitsNat ds : Nat) : Int)
      ∧ parse_expected_count (.vstr ("<".toList ++ ws ++ ds)) =
          .ok "<".toList ((digitsNat ds : Nat) : Int))
  ∧ (∀ nds mds : List Char, allDigits nds → allDigits mds →
        parse_expected_count (.vstr ('~' :: (nds ++ '-' :: mds))) =
          .ok ">=".toList ((digitsNat nds : Nat) : Int))
  ∧ (∀ s : List Char,
        (∀ c, (pyStrip s).head? = some c → c ≠ '>' ∧ c ≠ '<' ∧ c ≠ '~') →
        pyInt s = none →
        parse_expected_count (.vstr s) = .errNamed s) := by
  refine ⟨fun n => rfl, ?_, ?_, ?_⟩
  · intro ws ds hws hds
    exact ⟨parse_ge_spaced hws hds, parse_gt_spaced hws hds,
           parse_le_spaced hws hds, parse_lt_spaced hws hds⟩
  · intro nds mds hn hm
    exact parse_tilde_range hn hm
  · intro s hhead hint
    exact parse_errNamed_of hhead hint

/-- **C1 (counterexample).** `">>5"` is not one of the claim's accepted
forms — it is not an integer, and the text after its `>` prefix, `">5"`, is
not an integer — so the claim requires a parse error naming it; but the code
strips every `>` with `str.replace` and returns `(">", 5)`. -/
theorem c1_counterexample_gtgt5 :
    claimAcceptedForm (.vstr ">>5".toList) = false ∧
    parse_expected_count (.vstr ">>5".toList) = .ok ">".toList 5 := by
  exact ⟨by decide, by decide⟩

/-- **C1 (witness).** The amended grammar at the spec's own examples. -/
theorem c1_expected_count_grammar_witness :
    parse_expected_count (.vint 2) = .ok "==".toList 2 ∧
    parse_expected_count (.vstr ">= 3".toList) = .ok ">=".toList 3 ∧
    parse_expected_count (.vstr "~30-50".toList) = .ok ">=".toList 30 ∧
    parse_expected_count (.vstr "abc".toList) = .errNamed "abc".toList := by
  obtain ⟨ha, hb, hc, hd⟩ := c1_expected_count_grammar_amended
  refine ⟨ha 2, ?_, ?_, ?_⟩
  · exact (hb [' '] ['3'] (by decide) (by decide)).1
  · exact hc ['3', '0'] ['5', '0'] (by decide) (by decide)
  · refine hd "abc".toList ?_ (by decide)
    intro c hcc
    have h0 : (pyStrip "abc".toList).head? = some 'a' := by decide
    rw [h0] at hcc
    injection hcc with h
    subst h
    exact ⟨by decide, by decide, by decide⟩

/-- **C10 (witness).** The fallback at the plain-integer string `"7"` and
the dash-less shorthand `"~30"`. -/
theorem c10_parse_fallback_witness :
    parse_expected_count (.vstr "7".toList) = .ok "==".toList 7 ∧
    parse_expected_count (.vstr "~30".toList) = .errNamed "~30".toList := by
  obtain ⟨hfall, _, htilde⟩ := c10_parse_fallback_and_bare_tilde
  exact ⟨hfall "7".toList 7 (by decide), htilde ['3', '0'] (by decide)⟩

/-! Helper lemmas for the IPAddress watermark upsert. -/

theorem upsertIP_new (addr : String) (t : Int) :
    upsertIP [] addr t = [{ address := addr, first_seen := t, last_seen := t }] := by
  simp [upsertIP]

theorem upsertIP_existing (addr : String) (f l t : Int) :
    upsertIP [{ address := addr, first_seen := f, last_seen := l }] addr t =
      [{ address := addr, first_seen := f, last_seen := t }] := by
  simp [upsertIP]

theorem foldl_upsertIP_single (addr : String) :
    ∀ (ts : List Int) (f l : Int),
      ts.foldl (fun acc t => upsertIP acc addr t)
          [{ address := addr, first_seen := f, last_seen := l }] =
        [{ address := addr, first_seen := f, last_seen := ts.getLastD l }] := by
  intro ts
  induction ts with
  | nil => intro f l; rfl
  | cons t rest ih =>
    intro f l
    rw [List.foldl_cons, upsertIP_existing, ih, List.getLastD_cons]

theorem chain_le_head_getLastD :
    ∀ (ts : List Int) (t0 : Int), List.Chain' (· ≤ ·) (t0 :: ts) →
      ∀ t ∈ t0 :: ts, t0 ≤ t ∧ t ≤ ts.getLastD t0 := by
  intro ts
  induction ts with
  | nil =>
    intro t0 _ t ht
    rcases List.mem_cons.mp ht with rfl | h
    · exact ⟨le_refl _, le_refl _⟩
    · exact absurd h (List.not_mem_nil t)
  | cons b tl ih =>
    intro t0 hchain t ht
    obtain ⟨h0b, hchain'⟩ := List.chain'_cons.mp hchain
    rcases List.mem_cons.mp ht with rfl | hmem
    · refine ⟨le_refl _, ?_⟩
      rw [List.getLastD_cons]
      exact le_trans h0b (ih b hchain' b (by simp)).2
    · obtain ⟨hb, hl⟩ := ih b hchain' t hmem
      rw [List.getLastD_cons]
      exact ⟨le_trans h0b hb, hl⟩

/-- **C2 (counterexample).** Re-upserting `IPAddress` "10.0.0.1" with
T1 = 0 < T2 = 1 in the order T2, T1 yields `first_seen = 1 = T2` and
`last_seen = 0 = T1`: the `ON MATCH SET last_seen = t` clause overwrites the
watermark unconditionally and `first_seen` is never revisited, so the result
is *not* independent of upsert order as the claim states. -/
theorem c2_counterexample_upsert_order :
    upsertIP (upsertIP [] "10.0.0.1" 1) "10.0.0.1" 0 =
      [{ address := "10.0.0.1", first_seen := 1, last_seen := 0 }] ∧
    upsertIP (upsertIP [] "10.0.0.1" 1) "10.0.0.1" 0 ≠
      [{ address := "10.0.0.1", first_seen := 0, last_seen := 1 }] := by
  exact ⟨by decide, by decide⟩

/-- **C2 (amended).** Upserting the same `IPAddress` with T1 ≤ T2 yields
`first_seen = T1`, `last_seen = T2` when applied in ascending order — the
order in which the loader, fed timestamp-sorted batches, applies them — and
`first_seen = T2`, `last_seen = T1` in the reverse order: `first_seen` is
the first-applied and `last_seen` the last-applied timestamp.  Consequently,
for a nonempty upsert sequence `t0 :: ts` applied in non-decreasing order
the watermarks equal the min (`t0`) and max (the last element) of all
associated event timestamps. -/
theorem c2_ip_watermarks_amended :
    (∀ (addr : String) (t1 t2 : Int), t1 ≤ t2 →
        upsertIP (upsertIP [] addr t1) addr t2 =
          [{ address := addr, first_seen := t1, last_seen := t2 }]
      ∧ upsertIP (upsertIP [] addr t2) addr t1 =
          [{ address := addr, first_seen := t2, last_seen := t1 }])
  ∧ (∀ (addr : String) (t0 : Int) (ts : List Int),
        (t0 :: ts).foldl (fun acc t => upsertIP acc addr t) [] =
          [{ address := addr, first_seen := t0, last_seen := ts.getLastD t0 }])
  ∧ (∀ (t0 : Int) (ts : List Int), List.Chain' (· ≤ ·) (t0 :: ts) →
        ∀ t ∈ t0 :: ts, t0 ≤ t ∧ t ≤ ts.getLastD t0) := by
  refine ⟨?_, ?_, fun t0 ts h => chain_le_head_getLastD ts t0 h⟩
  · intro addr t1 t2 _
    exact ⟨by rw [upsertIP_new, upsertIP_existing], by rw [upsertIP_new, upsertIP_existing]⟩
  · intro addr t0 ts
    rw [List.foldl_cons, upsertIP_new, foldl_upsertIP_single]

/-- **C2 (witness).** The amended statement at `addr = "a"`,
timestamps 0 ≤ 5 and the ascending sequence `[0, 3, 5]`. -/
theorem c2_ip_watermarks_witness :
    upsertIP (upsertIP [] "a" 0) "a" 5 =
      [{ address := "a", first_seen := 0, last_seen := 5 }] ∧
    ([0, 3, 5] : List Int).foldl (fun acc t => upsertIP acc "a" t) [] =
      [{ address := "a", first_seen := 0, last_seen := 5 }] := by
  obtain ⟨hpair, hfold, _⟩ := c2_ip_watermarks_amended
  refine ⟨(hpair "a" 0 5 (by decide)).1, ?_⟩
  exact hfold "a" 0 [3, 5]

/-! Helper lemmas for the assertion runner. -/

theorem length_filter_add_length_filter_not (as : List Assertion) (p : Assertion → Bool) :
    (as.filter p).length + (as.filter (fun a => !p a)).length = as.length := by
  induction as with
  | nil => rfl
  | cons a tl ih =>
    cases hp : p a <;> simp [List.filter_cons, hp] <;> omega

theorem mainExitCode_eval (as : List Assertion) :
    mainExitCode as =
      if as.isEmpty then 1
      else if (as.filter (fun a => !run_assertion a)).length = 0 then 0 else 1 := by
  unfold mainExitCode run_all_assertions
  by_cases he : as.isEmpty
  · simp [he]
  · simp only [he, if_false, if_true]
    by_cases hf : (as.filter (fun a => !run_assertion a)).length = 0
    · simp [hf]
    · simp [hf]

/-- **C5 (counterexample).** For a scenario whose `abuse_assertions` list is
empty, every assertion (vacuously) passed, yet `run_all_assertions` prints
"No abuse_assertions found", returns `False`, and the process exits 1 — so
"exit code 0 iff every assertion passed" fails at the empty list. -/
theorem c5_counterexample_empty_scenario :
    mainExitCode [] = 1 ∧ ∀ a ∈ ([] : List Assertion), run_assertion a = true := by
  exact ⟨by decide, by simp⟩

/-- **C5 (amended).** The assertion runner executes every assertion of a
scenario even when one raises (unparsable expected count, unknown operator,
or query execution failure): the exception is caught inside `run_assertion`
and recorded as a failed assertion, the remaining assertions still run, and
the aggregate summary satisfies `total = length`, `passed` = number of
passing assertions, `failed` = number of non-passing ones, and
`passed + failed = total`.  The process exits 0 iff the scenario contains at
least one assertion and every assertion passed; otherwise (any failure, or
an assertion-free scenario) it exits 1. -/
theorem c5_runner_isolation_and_exit_amended :
    (∀ (a : Assertion) (err : AssertionErr),
        runAssertionBody a = .error err → run_assertion a = false)
  ∧ (∀ as : List Assertion, as ≠ [] →
        (run_all_assertions as).total = as.length
      ∧ (run_all_assertions as).passed = (as.filter (fun a => run_assertion a)).length
      ∧ (run_all_assertions as).failed = (as.filter (fun a => !run_assertion a)).length
      ∧ (run_all_assertions as).passed + (run_all_assertions as).failed =
          (run_all_assertions as).total)
  ∧ (∀ as : List Assertion,
        mainExitCode as = 0 ↔ (as ≠ [] ∧ ∀ a ∈ as, run_assertion a = true)) := by
  refine ⟨?_, ?_, ?_⟩
  · intro a err herr
    unfold run_assertion
    by_cases hq : a.query = ""
    · simp [hq]
    · simp [hq, herr]
  · intro as hne
    have he : as.isEmpty = false := by simpa [List.isEmpty_iff] using hne
    unfold run_all_assertions
    simp only [he, Bool.false_eq_true, if_false]
    refine ⟨trivial, trivial, trivial, length_filter_add_length_filter_not as _⟩
  · intro as
    rw [mainExitCode_eval]
    by_cases he : as.isEmpty
    · have : as = [] := List.isEmpty_iff.mp he
      subst this
      simp
    · have hne : as ≠ [] := by simpa [List.isEmpty_iff] using he
      simp only [he, Bool.false_eq_true, if_false]
      constructor
      · intro h0
        by_cases hf : (as.filter (fun a => !run_assertion a)).length = 0
        · refine ⟨hne, ?_⟩
          intro a ha
          have hnil : as.filter (fun a => !run_assertion a) = [] :=
            List.length_eq_zero.mp hf
          have := List.filter_eq_nil_iff.mp hnil a ha
          simpa using this
        · simp [hf] at h0
      · rintro ⟨-, hall⟩
        have hnil : as.filter (fun a => !run_assertion a) = [] := by
          rw [List.filter_eq_nil_iff]
          intro a ha
          simp [hall a ha]
        simp [hnil]

/-- **C5 (witness).** A malformed expected count is caught and counted as a
failure; a one-assertion scenario whose assertion passes exits 0. -/
theorem c5_runner_witness :
    run_assertion { query := "MATCH (n) RETURN n",
                    expected := .vstr "nope".toList, outcome := .ok 0 } = false ∧
    mainExitCode [{ query := "MATCH (n) RETURN n",
                    expected := .vint 1, outcome := .ok 1 }] = 0 := by
  obtain ⟨herr, _, hiff⟩ := c5_runner_isolation_and_exit_amended
  constructor
  · exact herr _ .parseErr rfl
  · refine (hiff _).mpr ⟨by decide, ?_⟩
    intro a ha
    rw [List.mem_singleton.mp ha]
    decide

/-! Helper lemmas for the batch loader (claims C3/C4). -/

theorem loadEvent_events (st : GraphState) (e : Event) :
    (loadEvent st e).events = st.events ++ [e] := by
  unfold loadEvent
  cases e.client_ip <;> cases e.session_id <;> cases e.user_id <;> cases e.store_id <;> rfl

theorem foldl_load_events (batch : List Event) :
    ∀ st : GraphState, (batch.foldl loadEvent st).events = st.events ++ batch := by
  induction batch with
  | nil => intro st; simp
  | cons e tl ih =>
    intro st
    rw [List.foldl_cons, ih, loadEvent_events]
    simp

theorem upsertIP_keys (ips : List IPNode) (addr : String) (t : Int) :
    (upsertIP ips addr t).map IPNode.address =
      if addr ∈ ips.map IPNode.address then ips.map IPNode.address
      else ips.map IPNode.address ++ [addr] := by
  unfold upsertIP
  by_cases h : ∃ ip ∈ ips, ip.address = addr
  · have hany : ips.any (fun ip => ip.address == addr) = true := by
      rw [List.any_eq_true]
      obtain ⟨ip, hm, he⟩ := h
      exact ⟨ip, hm, by simp [he]⟩
    have hmem : addr ∈ ips.map IPNode.address := by
      obtain ⟨ip, hm, he⟩ := h
      exact he ▸ List.mem_map_of_mem IPNode.address hm
    rw [hany, if_pos hmem]
    simp only [if_true, List.map_map]
    refine List.map_congr_left ?_
    intro ip _
    by_cases hip : ip.address = addr <;> simp [hip]
  · have hany : ips.any (fun ip => ip.address == addr) = false := by
      rw [List.any_eq_false]
      intro ip hm
      simp only [beq_iff_eq]
      exact fun he => h ⟨ip, hm, he⟩
    have hmem : addr ∉ ips.map IPNode.address := by
      intro hm
      obtain ⟨ip, hin, he⟩ := List.mem_map.mp hm
      exact h ⟨ip, hin, he⟩
    rw [hany, if_neg hmem]
    simp

theorem upsertSession_keys (ss : List SessionNode) (sid : String) (t : Int) :
    (upsertSession ss sid t).map SessionNode.session_id =
      if sid ∈ ss.map SessionNode.session_id then ss.map SessionNode.session_id
      else ss.map SessionNode.session_id ++ [sid] := by
  unfold upsertSession
  by_cases h : ∃ s ∈ ss, s.session_id = sid
  · have hany : ss.any (fun s => s.session_id == sid) = true := by
      rw [List.any_eq_true]
      obtain ⟨s, hm, he⟩ := h
      exact ⟨s, hm, by simp [he]⟩
    have hmem : sid ∈ ss.map SessionNode.session_id := by
      obtain ⟨s, hm, he⟩ := h
      exact he ▸ List.mem_map_of_mem SessionNode.session_id hm
    rw [hany, if_pos hmem]
    simp only [if_true, List.map_map]
    refine List.map_congr_left ?_
    intro s _
    by_cases hs : s.session_id = sid <;> simp [hs]
  · have hany : ss.any (fun s => s.session_id == sid) = false := by
      rw [List.any_eq_false]
      intro s hm
      simp only [beq_iff_eq]
      exact fun he => h ⟨s, hm, he⟩
    have hmem : sid ∉ ss.map SessionNode.session_id := by
      intro hm
      obtain ⟨s, hin, he⟩ := List.mem_map.mp hm
      exact h ⟨s, hin, he⟩
    rw [hany, if_neg hmem]
    simp

theorem upsertUser_keys (us : List UserNode) (uid : Int) (t : Int) :
    (upsertUser us uid t).map UserNode.user_id =
      if uid ∈ us.map UserNode.user_id then us.map UserNode.user_id
      else us.map UserNode.user_id ++ [uid] := by
  unfold upsertUser
  by_cases h : ∃ u ∈ us, u.user_id = uid
  · have hany : us.any (fun u => u.user_id == uid) = true := by
      rw [List.any_eq_true]
      obtain ⟨u, hm, he⟩ := h
      exact ⟨u, hm, by simp [he]⟩
    have hmem : uid ∈ us.map UserNode.user_id := by
      obtain ⟨u, hm, he⟩ := h
      exact he ▸ List.mem_map_of_mem UserNode.user_id hm
    rw [hany, if_pos hmem]
    simp
  · have hany : us.any (fun u => u.user_id == uid) = false := by
      rw [List.any_eq_false]
      intro u hm
      simp only [beq_iff_eq]
      exact fun he => h ⟨u, hm, he⟩
    have hmem : uid ∉ us.map UserNode.user_id := by
      intro hm
      obtain ⟨u, hin, he⟩ := List.mem_map.mp hm
      exact h ⟨u, hin, he⟩
    rw [hany, if_neg hmem]
    simp

theorem upsertStore_keys (sts : List StoreNode) (stid : String) (t : Int) :
    (upsertStore sts stid t).map StoreNode.store_id =
      if stid ∈ sts.map StoreNode.store_id then sts.map StoreNode.store_id
      else sts.map StoreNode.store_id ++ [stid] := by
  unfold upsertStore
  by_cases h : ∃ s ∈ sts, s.store_id = stid
  · have hany : sts.any (fun s => s.store_id == stid) = true := by
      rw [List.any_eq_true]
      obtain ⟨s, hm, he⟩ := h
      exact ⟨s, hm, by simp [he]⟩
    have hmem : stid ∈ sts.map StoreNode.store_id := by
      obtain ⟨s, hm, he⟩ := h
      exact he ▸ List.mem_map_of_mem StoreNode.store_id hm
    rw [hany, if_pos hmem]
    simp
  · have hany : sts.any (fun s => s.store_id == stid) = false := by
      rw [List.any_eq_false]
      intro s hm
      simp only [beq_iff_eq]
      exact fun he => h ⟨s, hm, he⟩
    have hmem : stid ∉ sts.map StoreNode.store_id := by
      intro hm
      obtain ⟨s, hin, he⟩ := List.mem_map.mp hm
      exact h ⟨s, hin, he⟩
    rw [hany, if_neg hmem]
    simp

theorem loadEvent_ips_keys (st : GraphState) (e : Event) :
    (loadEvent st e).ips.map IPNode.address =
      insertKeyStep (st.ips.map IPNode.address) e.client_ip := by
  unfold loadEvent
  cases e.client_ip <;> cases e.session_id <;> cases e.user_id <;> cases e.store_id <;>
    simp [upsertIP_keys, insertKeyStep]

theorem loadEvent_sessions_keys (st : GraphState) (e : Event) :
    (loadEvent st e).sessions.map SessionNode.session_id =
      insertKeyStep (st.sessions.map SessionNode.session_id) e.session_id := by
  unfold loadEvent
  cases e.client_ip <;> cases e.session_id <;> cases e.user_id <;> cases e.store_id <;>
    simp [upsertSession_keys, insertKeyStep]

theorem loadEvent_users_keys (st : GraphState) (e : Event) :
    (loadEvent st e).users.map UserNode.user_id =
      insertKeyStep (st.users.map UserNode.user_id) e.user_id := by
  unfold loadEvent
  cases e.client_ip <;> cases e.session_id <;> cases e.user_id <;> cases e.store_id <;>
    simp [upsertUser_keys, insertKeyStep]

theorem loadEvent_stores_keys (st : GraphState) (e : Event) :
    (loadEvent st e).stores.map StoreNode.store_id =
      insertKeyStep (st.stores.map StoreNode.store_id) e.store_id := by
  unfold loadEvent
  cases e.client_ip <;> cases e.session_id <;> cases e.user_id <;> cases e.store_id <;>
    simp [upsertStore_keys, insertKeyStep]

theorem loadEvent_rels_length (st : GraphState) (e : Event) :
    (loadEvent st e).rels.length =
      st.rels.length +
        ((if e.client_ip.isSome then 1 else 0) + (if e.session_id.isSome then 1 else 0) +
         (if e.user_id.isSome then 1 else 0) + (if e.store_id.isSome then 1 else 0)) := by
  unfold loadEvent
  cases e.client_ip <;> cases e.session_id <;> cases e.user_id <;> cases e.store_id <;> simp

/-! The behaviour of the per-entity key fold (key insertion keyed by an
optional field), generically over the key type. -/

theorem insertFold_mem {α : Type} [DecidableEq α] :
    ∀ (opts : List (Option α)) (ks : List α) (a : α),
      a ∈ opts.foldl insertKeyStep ks ↔ a ∈ ks ∨ some a ∈ opts := by
  intro opts
  induction opts with
  | nil => intro ks a; simp
  | cons o tl ih =>
    intro ks a
    rw [List.foldl_cons, ih]
    cases o with
    | none => simp [insertKeyStep]
    | some b =>
      simp only [insertKeyStep]
      by_cases hb : b ∈ ks
      · rw [if_pos hb]
        constructor
        · rintro (h | h)
          · exact Or.inl h
          · exact Or.inr (List.mem_cons_of_mem _ h)
        · rintro (h | h)
          · exact Or.inl h
          · rcases List.mem_cons.mp h with he | h
            · injection he with he'
              exact Or.inl (he' ▸ hb)
            · exact Or.inr h
      · rw [if_neg hb]
        constructor
        · rintro (h | h)
          · rcases List.mem_append.mp h with h | h
            · exact Or.inl h
            · rcases List.mem_singleton.mp h with rfl
              exact Or.inr (List.mem_cons_self _ _)
          · exact Or.inr (List.mem_cons_of_mem _ h)
        · rintro (h | h)
          · exact Or.inl (List.mem_append_left _ h)
          · rcases List.mem_cons.mp h with he | h
            · injection he with he'
              exact Or.inl (List.mem_append_right _ (by simp [he']))
            · exact Or.inr h

theorem insertFold_nodup {α : Type} [DecidableEq α] :
    ∀ (opts : List (Option α)) (ks : List α), ks.Nodup →
      (opts.foldl insertKeyStep ks).Nodup := by
  intro opts
  induction opts with
  | nil => intro ks h; exact h
  | cons o tl ih =>
    intro ks h
    rw [List.foldl_cons]
    cases o with
    | none => exact ih ks h
    | some b =>
      simp only [insertKeyStep]
      by_cases hb : b ∈ ks
      · rw [if_pos hb]; exact ih ks h
      · rw [if_neg hb]
        refine ih _ ?_
        simpa [List.nodup_append] using ⟨h, hb⟩

theorem insertFold_stable {α : Type} [DecidableEq α] :
    ∀ (opts : List (Option α)) (ks : List α),
      (∀ a : α, some a ∈ opts → a ∈ ks) →
      opts.foldl insertKeyStep ks = ks := by
  intro opts
  induction opts with
  | nil => intro ks _; rfl
  | cons o tl ih =>
    intro ks hall
    rw [List.foldl_cons]
    cases o with
    | none => exact ih ks (fun a ha => hall a (List.mem_cons_of_mem _ ha))
    | some b =>
      simp only [insertKeyStep]
      rw [if_pos (hall b (List.mem_cons_self _ _))]
      exact ih ks (fun a ha => hall a (List.mem_cons_of_mem _ ha))

theorem foldl_load_ips_keys (batch : List Event) :
    ∀ st : GraphState,
      (batch.foldl loadEvent st).ips.map IPNode.address =
        (batch.map Event.client_ip).foldl insertKeyStep (st.ips.map IPNode.address) := by
  induction batch with
  | nil => intro st; rfl
  | cons e tl ih =>
    intro st
    rw [List.map_cons, List.foldl_cons, List.foldl_cons, ih, loadEvent_ips_keys]

theorem foldl_load_sessions_keys (batch : List Event) :
    ∀ st : GraphState,
      (batch.foldl loadEvent st).sessions.map SessionNode.session_id =
        (batch.map Event.session_id).foldl insertKeyStep (st.sessions.map SessionNode.session_id) := by
  induction batch with
  | nil => intro st; rfl
  | cons e tl ih =>
    intro st
    rw [List.map_cons, List.foldl_cons, List.foldl_cons, ih, loadEvent_sessions_keys]

theorem foldl_load_users_keys (batch : List Event) :
    ∀ st : GraphState,
      (batch.foldl loadEvent st).users.map UserNode.user_id =
        (batch.map Event.user_id).foldl insertKeyStep (st.users.map UserNode.user_id) := by
  induction batch with
  | nil => intro st; rfl
  | cons e tl ih =>
    intro st
    rw [List.map_cons, List.foldl_cons, List.foldl_cons, ih, loadEvent_users_keys]

theorem foldl_load_stores_keys (batch : List Event) :
    ∀ st : GraphState,
      (batch.foldl loadEvent st).stores.map StoreNode.store_id =
        (batch.map Event.store_id).foldl insertKeyStep (st.stores.map StoreNode.store_id) := by
  induction batch with
  | nil => intro st; rfl
  | cons e tl ih =>
    intro st
    rw [List.map_cons, List.foldl_cons, List.foldl_cons, ih, loadEvent_stores_keys]

theorem foldl_load_rels_length (batch : List Event) :
    ∀ st : GraphState,
      (batch.foldl loadEvent st).rels.length =
        st.rels.length + (batch.map (fun e =>
          (if e.client_ip.isSome then 1 else 0) + (if e.session_id.isSome then 1 else 0) +
          (if e.user_id.isSome then 1 else 0) + (if e.store_id.isSome then 1 else 0))).sum := by
  induction batch with
  | nil => intro st; simp
  | cons e tl ih =>
    intro st
    rw [List.foldl_cons, ih, loadEvent_rels_length, List.map_cons, List.sum_cons]
    omega

/-- **C4.** Loading the same event batch twice leaves exactly one
`IPAddress`, `Session`, `User` and `Store` node per distinct natural key
(address / session_id / user_id / store_id): the key lists carry no
duplicates, a key is present iff some event of the batch carries it, and the
second load leaves all four key lists unchanged.  The second load does,
however, append a second Event node for every event — `CREATE` is
unconditional and `event_id` is no dedup key — and a second set of
relationship records, doubling both. -/
theorem c4_double_load_idempotent_entities :
    ∀ batch : List Event,
      (load_events_batch emptyGraph batch).1.events = batch
    ∧ (load_events_batch (load_events_batch emptyGraph batch).1 batch).1.events =
        batch ++ batch
    ∧ (load_events_batch (load_events_batch emptyGraph batch).1 batch).1.events.length =
        2 * batch.length
    ∧ ((load_events_batch (load_events_batch emptyGraph batch).1 batch).1.ips.map
          IPNode.address =
        (load_events_batch emptyGraph batch).1.ips.map IPNode.address
      ∧ ((load_events_batch emptyGraph batch).1.ips.map IPNode.address).Nodup
      ∧ (∀ a : String, a ∈ (load_events_batch emptyGraph batch).1.ips.map IPNode.address ↔
          ∃ e ∈ batch, e.client_ip = some a))
    ∧ ((load_events_batch (load_events_batch emptyGraph batch).1 batch).1.sessions.map
          SessionNode.session_id =
        (load_events_batch emptyGraph batch).1.sessions.map SessionNode.session_id
      ∧ ((load_events_batch emptyGraph batch).1.sessions.map SessionNode.session_id).Nodup
      ∧ (∀ a : String,
          a ∈ (load_events_batch emptyGraph batch).1.sessions.map SessionNode.session_id ↔
          ∃ e ∈ batch, e.session_id = some a))
    ∧ ((load_events_batch (load_events_batch emptyGraph batch).1 batch).1.users.map
          UserNode.user_id =
        (load_events_batch emptyGraph batch).1.users.map UserNode.user_id
      ∧ ((load_events_batch emptyGraph batch).1.users.map UserNode.user_id).Nodup
      ∧ (∀ a : Int, a ∈ (load_events_batch emptyGraph batch).1.users.map UserNode.user_id ↔
          ∃ e ∈ batch, e.user_id = some a))
    ∧ ((load_events_batch (load_events_batch emptyGraph batch).1 batch).1.stores.map
          StoreNode.store_id =
        (load_events_batch emptyGraph batch).1.stores.map StoreNode.store_id
      ∧ ((load_events_batch emptyGraph batch).1.stores.map StoreNode.store_id).Nodup
      ∧ (∀ a : String,
          a ∈ (load_events_batch emptyGraph batch).1.stores.map StoreNode.store_id ↔
          ∃ e ∈ batch, e.store_id = some a))
    ∧ (load_events_batch (load_events_batch emptyGraph batch).1 batch).1.rels.length =
        2 * (load_events_batch emptyGraph batch).1.rels.length
    ∧ (∀ st : GraphState, (load_events_batch st batch).2 = batch.length) := by
  intro batch
  have hev1 : (load_events_batch emptyGraph batch).1.events = batch := by
    unfold load_events_batch
    rw [foldl_load_events]
    rfl
  have hev2 : (load_events_batch (load_events_batch emptyGraph batch).1 batch).1.events =
      batch ++ batch := by
    unfold load_events_batch
    rw [foldl_load_events, foldl_load_events]
    rfl
  have hipmem : ∀ a : String,
      a ∈ (load_events_batch emptyGraph batch).1.ips.map IPNode.address ↔
      ∃ e ∈ batch, e.client_ip = some a := by
    intro a
    unfold load_events_batch
    rw [foldl_load_ips_keys, insertFold_mem]
    simp [List.mem_map, emptyGraph]
  have hsessmem : ∀ a : String,
      a ∈ (load_events_batch emptyGraph batch).1.sessions.map SessionNode.session_id ↔
      ∃ e ∈ batch, e.session_id = some a := by
    intro a
    unfold load_events_batch
    rw [foldl_load_sessions_keys, insertFold_mem]
    simp [List.mem_map, emptyGraph]
  have husermem : ∀ a : Int,
      a ∈ (load_events_batch emptyGraph batch).1.users.map UserNode.user_id ↔
      ∃ e ∈ batch, e.user_id = some a := by
    intro a
    unfold load_events_batch
    rw [foldl_load_users_keys, insertFold_mem]
    simp [List.mem_map, emptyGraph]
  have hstoremem : ∀ a : String,
      a ∈ (load_events_batch emptyGraph batch).1.stores.map StoreNode.store_id ↔
      ∃ e ∈ batch, e.store_id = some a := by
    intro a
    unfold load_events_batch
    rw [foldl_load_stores_keys, insertFold_mem]
    simp [List.mem_map, emptyGraph]
  refine ⟨hev1, hev2, by rw [hev2]; simp; omega, ⟨?_, ?_, hipmem⟩, ⟨?_, ?_, hsessmem⟩,
    ⟨?_, ?_, husermem⟩, ⟨?_, ?_, hstoremem⟩, ?_, fun st => rfl⟩
  · unfold load_events_batch
    rw [foldl_load_ips_keys]
    refine insertFold_stable _ _ ?_
    intro a ha
    obtain ⟨e, hm, he⟩ := List.mem_map.mp ha
    exact (hipmem a).mpr ⟨e, hm, he⟩
  · unfold load_events_batch
    rw [foldl_load_ips_keys]
    exact insertFold_nodup _ _ (by decide)
  · unfold load_events_batch
    rw [foldl_load_sessions_keys]
    refine insertFold_stable _ _ ?_
    intro a ha
    obtain ⟨e, hm, he⟩ := List.mem_map.mp ha
    exact (hsessmem a).mpr ⟨e, hm, he⟩
  · unfold load_events_batch
    rw [foldl_load_sessions_keys]
    exact insertFold_nodup _ _ (by decide)
  · unfold load_events_batch
    rw [foldl_load_users_keys]
    refine insertFold_stable _ _ ?_
    intro a ha
    obtain ⟨e, hm, he⟩ := List.mem_map.mp ha
    exact (husermem a).mpr ⟨e, hm, he⟩
  · unfold load_events_batch
    rw [foldl_load_users_keys]
    exact insertFold_nodup _ _ (by decide)
  · unfold load_events_batch
    rw [foldl_load_stores_keys]
    refine insertFold_stable _ _ ?_
    intro a ha
    obtain ⟨e, hm, he⟩ := List.mem_map.mp ha
    exact (hstoremem a).mpr ⟨e, hm, he⟩
  · unfold load_events_batch
    rw [foldl_load_stores_keys]
    exact insertFold_nodup _ _ (by decide)
  · unfold load_events_batch
    rw [foldl_load_rels_length, foldl_load_rels_length]
    have h0 : emptyGraph.rels.length = 0 := rfl
    omega

/-- **C4 (witness).** A concrete two-event batch sharing one IP and one
session: after two loads there are 4 Event nodes but a single IPAddress key
and a single Session key, and the relationship count doubles from 4 to 8. -/
theorem c4_double_load_witness :
    (load_events_batch
        (load_events_batch emptyGraph
          [{ event_id := "e1", action := some "a", timestamp := 0,
             client_ip := some "9.9.9.9", session_id := some "s1" },
           { event_id := "e2", action := some "b", timestamp := 5,
             client_ip := some "9.9.9.9", session_id := some "s1" }]).1
        [{ event_id := "e1", action := some "a", timestamp := 0,
           client_ip := some "9.9.9.9", session_id := some "s1" },
         { event_id := "e2", action := some "b", timestamp := 5,
           client_ip := some "9.9.9.9", session_id := some "s1" }]).1.events.length = 4 ∧
    (load_events_batch
        (load_events_batch emptyGraph
          [{ event_id := "e1", action := some "a", timestamp := 0,
             client_ip := some "9.9.9.9", session_id := some "s1" },
           { event_id := "e2", action := some "b", timestamp := 5,
             client_ip := some "9.9.9.9", session_id := some "s1" }]).1
        [{ event_id := "e1", action := some "a", timestamp := 0,
           client_ip := some "9.9.9.9", session_id := some "s1" },
         { event_id := "e2", action := some "b", timestamp := 5,
           client_ip := some "9.9.9.9", session_id := some "s1" }]).1.ips.map
      IPNode.address = ["9.9.9.9"] := by
  have h := c4_double_load_idempotent_entities
    [{ event_id := "e1", action := some "a", timestamp := 0,
       client_ip := some "9.9.9.9", session_id := some "s1" },
     { event_id := "e2", action := some "b", timestamp := 5,
       client_ip := some "9.9.9.9", session_id := some "s1" }]
  exact ⟨h.2.2.1, by decide⟩

/-! Helper lemmas for the temporal relationship deriver (claim C3). -/

theorem chain'_pairs {α : Type} {R : α → α → Prop} :
    ∀ {l : List α}, List.Chain' R l → ∀ p ∈ l.zip l.tail, R p.1 p.2 := by
  intro l
  induction l with
  | nil => intro _ p hp; simp at hp
  | cons a m ih =>
    intro hch p hp
    cases m with
    | nil => simp at hp
    | cons b k =>
      obtain ⟨hab, hch'⟩ := List.chain'_cons.mp hch
      simp only [List.tail_cons, List.zip_cons_cons] at hp
      rcases List.mem_cons.mp hp with rfl | hp
      · exact hab
      · exact ih hch' p (by simpa using hp)

theorem mem_sessionEvents (st : GraphState) (sid : String) :
    ∀ x ∈ sortByTimestamp (st.events.filter (fun e => e.session_id == some sid)),
      x.session_id = some sid := by
  intro x hx
  have hx' : x ∈ st.events.filter (fun e => e.session_id == some sid) :=
    (List.Perm.mem_iff (List.perm_insertionSort tsLe _)).mp hx
  have := (List.mem_filter.mp hx').2
  simpa using this

theorem sessionChain_eq (st : GraphState) (sid : String) :
    sessionChain st sid =
      ((sortByTimestamp (st.events.filter (fun e => e.session_id == some sid))).zip
        (sortByTimestamp (st.events.filter (fun e => e.session_id == some sid))).tail).map
        (fun p => { src := p.1, dst := p.2,
                    time_delta_ms := p.2.timestamp - p.1.timestamp }) := by
  unfold sessionChain consecutivePairs
  dsimp only
  have hall : ∀ p ∈ (sortByTimestamp (st.events.filter
        (fun e => e.session_id == some sid))).zip
      (sortByTimestamp (st.events.filter (fun e => e.session_id == some sid))).tail,
      (p.1.session_id == p.2.session_id) = true := by
    intro p hp
    obtain ⟨h1, h2⟩ := List.of_mem_zip hp
    have e1 := mem_sessionEvents st sid p.1 h1
    have e2 := mem_sessionEvents st sid p.2 (List.mem_of_mem_tail h2)
    simp [e1, e2]
  rw [List.filter_eq_self.mpr hall]

theorem sessionChain_edge_props (st : GraphState) (sid : String) :
    ∀ ed ∈ sessionChain st sid,
      ed.src.session_id = some sid ∧ ed.dst.session_id = some sid ∧
      0 ≤ ed.time_delta_ms := by
  intro ed hed
  rw [sessionChain_eq] at hed
  obtain ⟨p, hp, rfl⟩ := List.mem_map.mp hed
  obtain ⟨h1, h2⟩ := List.of_mem_zip hp
  have e1 := mem_sessionEvents st sid p.1 h1
  have e2 := mem_sessionEvents st sid p.2 (List.mem_of_mem_tail h2)
  have hsorted : List.Sorted tsLe
      (sortByTimestamp (st.events.filter (fun e => e.session_id == some sid))) :=
    List.sorted_insertionSort tsLe _
  have hts : tsLe p.1 p.2 := chain'_pairs hsorted.chain' p hp
  refine ⟨e1, e2, ?_⟩
  show 0 ≤ p.2.timestamp - p.1.timestamp
  simp only [tsLe] at hts
  omega

theorem sessionChain_length (st : GraphState) (sid : String) :
    (sessionChain st sid).length =
      (st.events.filter (fun e => e.session_id == some sid)).length - 1 := by
  rw [sessionChain_eq, List.length_map, List.length_zip, List.length_tail]
  rw [min_eq_right (Nat.sub_le _ _)]
  congr 1
  exact (List.perm_insertionSort tsLe _).length_eq

theorem filter_flatMap_single {κ : Type} [DecidableEq κ]
    (f : κ → List NextEdge) (p : NextEdge → Bool) (sid : κ) :
    ∀ keys : List κ, keys.Nodup → sid ∈ keys →
      (∀ ed ∈ f sid, p ed = true) →
      (∀ k ∈ keys, k ≠ sid → ∀ ed ∈ f k, p ed = false) →
      (keys.flatMap f).filter p = f sid := by
  intro keys
  induction keys with
  | nil => intro _ h; simp at h
  | cons k tl ih =>
    intro hnd hmem hin hout
    rw [List.flatMap_cons, List.filter_append]
    rcases List.mem_cons.mp hmem with rfl | hmem'
    · rw [List.filter_eq_self.mpr hin]
      have hrest : (tl.flatMap f).filter p = [] := by
        rw [List.filter_eq_nil_iff]
        intro ed hed
        obtain ⟨k', hk', hed'⟩ := List.mem_flatMap.mp hed
        have hk'ne : k' ≠ sid := by
          intro he
          exact (List.nodup_cons.mp hnd).1 (he ▸ hk')
        simp [hout k' (List.mem_cons_of_mem _ hk') hk'ne ed hed']
      rw [hrest, List.append_nil]
    · have hk : k ≠ sid := by
        intro he
        exact (List.nodup_cons.mp hnd).1 (he ▸ hmem')
      rw [List.filter_eq_nil_iff.mpr
            (fun ed hed => by simp [hout k (List.mem_cons_self _ _) hk ed hed]),
          List.nil_append]
      exact ih (List.nodup_cons.mp hnd).2 hmem' hin
        (fun k' hk' => hout k' (List.mem_cons_of_mem _ hk'))

/-- **C3.** For every session with N ≥ 2 loaded events, one run of the
temporal relationship deriver immediately after a load creates exactly N − 1
`NEXT_EVENT` edges for that session — precisely one edge between each
timestamp-consecutive pair of the session's events in sorted order — every
derived edge carries a millisecond `time_delta ≥ 0` and links two events of
one and the same session, and the run returns the count of edges created. -/
theorem c3_temporal_next_event_edges (batch : List Event) (sid : String)
    (h2 : 2 ≤ ((load_events_batch emptyGraph batch).1.events.filter
        (fun e => e.session_id == some sid)).length) :
    ((create_temporal_relationships (load_events_batch emptyGraph batch).1).1.filter
        (fun ed => ed.src.session_id == some sid)) =
      ((sortByTimestamp ((load_events_batch emptyGraph batch).1.events.filter
          (fun e => e.session_id == some sid))).zip
        (sortByTimestamp ((load_events_batch emptyGraph batch).1.events.filter
          (fun e => e.session_id == some sid))).tail).map
        (fun p => { src := p.1, dst := p.2,
                    time_delta_ms := p.2.timestamp - p.1.timestamp })
  ∧ ((create_temporal_relationships (load_events_batch emptyGraph batch).1).1.filter
        (fun ed => ed.src.session_id == some sid)).length =
      ((load_events_batch emptyGraph batch).1.events.filter
        (fun e => e.session_id == some sid)).length - 1
  ∧ (∀ ed ∈ (create_temporal_relationships (load_events_batch emptyGraph batch).1).1,
        0 ≤ ed.time_delta_ms ∧ ed.src.session_id = ed.dst.session_id ∧
        ed.src.session_id.isSome = true)
  ∧ (create_temporal_relationships (load_events_batch emptyGraph batch).1).2 =
      (create_temporal_relationships (load_events_batch emptyGraph batch).1).1.length := by
  have hkeys_nodup :
      ((load_events_batch emptyGraph batch).1.sessions.map SessionNode.session_id).Nodup := by
    unfold load_events_batch
    rw [foldl_load_sessions_keys]
    exact insertFold_nodup _ _ (by decide)
  have hkeys_mem : ∀ a : String,
      a ∈ (load_events_batch emptyGraph batch).1.sessions.map SessionNode.session_id ↔
      ∃ e ∈ batch, e.session_id = some a := by
    intro a
    unfold load_events_batch
    rw [foldl_load_sessions_keys, insertFold_mem]
    simp [List.mem_map, emptyGraph]
  have hev : (load_events_batch emptyGraph batch).1.events = batch := by
    unfold load_events_batch
    rw [foldl_load_events]
    rfl
  have hsid_mem : sid ∈
      (load_events_batch emptyGraph batch).1.sessions.map SessionNode.session_id := by
    have hne : (load_events_batch emptyGraph batch).1.events.filter
        (fun e => e.session_id == some sid) ≠ [] := by
      intro hnil
      rw [hnil] at h2
      simp at h2
    obtain ⟨e, he⟩ := List.exists_mem_of_ne_nil _ hne
    have := List.mem_filter.mp he
    refine (hkeys_mem sid).mpr ⟨e, ?_, by simpa using this.2⟩
    rw [← hev]
    exact this.1
  have hfilter :
      ((create_temporal_relationships (load_events_batch emptyGraph batch).1).1.filter
        (fun ed => ed.src.session_id == some sid)) =
      sessionChain (load_events_batch emptyGraph batch).1 sid := by
    unfold create_temporal_relationships
    refine filter_flatMap_single _ _ sid _ hkeys_nodup hsid_mem ?_ ?_
    · intro ed hed
      have := (sessionChain_edge_props _ sid ed hed).1
      simp [this]
    · intro k _ hk ed hed
      have := (sessionChain_edge_props _ k ed hed).1
      simp [this, hk]
  refine ⟨?_, ?_, ?_, rfl⟩
  · rw [hfilter, sessionChain_eq]
  · rw [hfilter, sessionChain_length]
  · intro ed hed
    unfold create_temporal_relationships at hed
    obtain ⟨k, _, hed'⟩ := List.mem_flatMap.mp hed
    obtain ⟨e1, e2, hdelta⟩ := sessionChain_edge_props _ k ed hed'
    exact ⟨hdelta, by rw [e1, e2], by rw [e1]; rfl⟩

/-- **C3 (witness).** A four-event batch with three events in session "s"
(loaded out of timestamp order) and one in session "t": the run derives
exactly 2 = 3 − 1 edges for "s". -/
theorem c3_temporal_witness :
    ((create_temporal_relationships (load_events_batch emptyGraph
        [{ event_id := "e1", action := some "a", timestamp := 0,
           client_ip := some "1.1.1.1", session_id := some "s" },
         { event_id := "e2", action := some "a", timestamp := 100,
           client_ip := some "1.1.1.1", session_id := some "s" },
         { event_id := "e3", action := some "a", timestamp := 50,
           client_ip := some "1.1.1.1", session_id := some "s" },
         { event_id := "e4", action := some "a", timestamp := 10,
           client_ip := some "2.2.2.2", session_id := some "t" }]).1).1.filter
      (fun ed => ed.src.session_id == some "s")).length = 2 := by
  have h := c3_temporal_next_event_edges
    [{ event_id := "e1", action := some "a", timestamp := 0,
       client_ip := some "1.1.1.1", session_id := some "s" },
     { event_id := "e2", action := some "a", timestamp := 100,
       client_ip := some "1.1.1.1", session_id := some "s" },
     { event_id := "e3", action := some "a", timestamp := 50,
       client_ip := some "1.1.1.1", session_id := some "s" },
     { event_id := "e4", action := some "a", timestamp := 10,
       client_ip := some "2.2.2.2", session_id := some "t" }] "s" (by decide)
  exact h.2.1.trans (by decide)

/-! Helper lemmas for the generators (claims C6-C9). -/

theorem pyRandint_bounds {lo hi : Int} (h : lo ≤ hi) (r : Rand) :
    lo ≤ (pyRandint lo hi r).1 ∧ (pyRandint lo hi r).1 ≤ hi := by
  unfold pyRandint drawNat
  cases r with
  | nil =>
    dsimp only
    simp only [Nat.zero_mod]
    omega
  | cons x xs =>
    dsimp only
    have := Nat.mod_lt x (y := (hi - lo + 1).toNat) (by omega)
    omega

theorem generate_event_timestamp (act : String) (st : Option String) (usr : UserBehavior)
    (sid p : String) (t : Int) (is iu : Bool) (r : Rand) (u : UStream) :
    (generate_event act st usr sid p t is iu r u).1.timestamp = t := rfl

theorem generate_event_status (act : String) (st : Option String) (usr : UserBehavior)
    (sid p : String) (t : Int) (is iu : Bool) (r : Rand) (u : UStream) :
    (generate_event act st usr sid p t is iu r u).1.status =
      (if truthyOptStr st then st else none) := rfl

theorem generate_event_action (act : String) (st : Option String) (usr : UserBehavior)
    (sid p : String) (t : Int) (is iu : Bool) (r : Rand) (u : UStream) :
    (generate_event act st usr sid p t is iu r u).1.action = some act := rfl

theorem generate_event_session (act : String) (st : Option String) (usr : UserBehavior)
    (sid p : String) (t : Int) (is iu : Bool) (r : Rand) (u : UStream) :
    (generate_event act st usr sid p t is iu r u).1.session_id =
      (if is && usr.session_id ≠ "" then some usr.session_id else none) := rfl

theorem generate_event_user (act : String) (st : Option String) (usr : UserBehavior)
    (sid p : String) (t : Int) (is iu : Bool) (r : Rand) (u : UStream) :
    (generate_event act st usr sid p t is iu r u).1.user_id =
      (if iu && truthyOptInt usr.user_id then usr.user_id else none) := rfl

theorem generate_event_token (act : String) (st : Option String) (usr : UserBehavior)
    (sid p : String) (t : Int) (is iu : Bool) (r : Rand) (u : UStream) :
    (generate_event act st usr sid p t is iu r u).1.auth_token_id =
      (if usr.auth_token_id ≠ "" then some usr.auth_token_id else none) := rfl

/-- The attempt loop: exact length, per-event fields, initial timestamp, and
100-2000 ms consecutive gaps. -/
theorem bruteEvents_props (attacker : UserBehavior) (store : String) :
    ∀ (n : Nat) (t : Int) (r : Rand) (u : UStream),
      (bruteEvents attacker store n t r u).1.length = n
    ∧ (∀ e ∈ (bruteEvents attacker store n t r u).1,
          e.status = some "fail" ∧ e.session_id = none ∧ e.user_id = none)
    ∧ (∀ e, (bruteEvents attacker store n t r u).1.head? = some e → e.timestamp = t)
    ∧ List.Chain' (fun a b =>
          100 ≤ b.timestamp - a.timestamp ∧ b.timestamp - a.timestamp ≤ 2000)
        (bruteEvents attacker store n t r u).1 := by
  intro n
  induction n with
  | zero =>
    intro t r u
    refine ⟨rfl, ?_, ?_, ?_⟩ <;> simp [bruteEvents]
  | succ k ih =>
    intro t r u
    simp only [bruteEvents]
    set ev := generate_event "auth_token_validated" (some "fail") attacker store
        "/api/v1/\x7bstore\x7d/auth/login" t false false r u with hev
    set g := pyRandint 100 2000 ev.2.1 with hg
    obtain ⟨ihlen, ihfields, ihhead, ihchain⟩ := ih (t + g.1) g.2 ev.2.2
    have hts : ev.1.timestamp = t := generate_event_timestamp _ _ _ _ _ _ _ _ _ _
    have hstat : ev.1.status = some "fail" := by
      rw [generate_event_status]
      rfl
    have hsess : ev.1.session_id = none := by
      rw [generate_event_session]
      rfl
    have huser : ev.1.user_id = none := by
      rw [generate_event_user]
      simp
    have hgb := pyRandint_bounds (by omega : (100 : Int) ≤ 2000) ev.2.1
    rw [← hg] at hgb
    refine ⟨by simp [ihlen], ?_, ?_, ?_⟩
    · intro e he
      rcases List.mem_cons.mp he with rfl | he'
      · exact ⟨hstat, hsess, huser⟩
      · exact ihfields e he'
    · intro e he
      rw [List.head?_cons] at he
      injection he with he'
      rw [← he', hts]
    · rw [List.chain'_cons']
      refine ⟨?_, ihchain⟩
      intro h hh
      have hht := ihhead h hh
      rw [hht, hts]
      omega

/-- **C8.** Every call to `generate_brute_force_attack` returns between 15
and 30 events inclusive; every returned event has status `"fail"` and
carries neither a `session_id` nor a `user_id`; and each consecutive pair of
events is separated by 100 to 2000 milliseconds. -/
theorem c8_brute_force_shape (ip : String) (t0 : Int) (store : String)
    (r : Rand) (u : UStream) :
    (15 ≤ (generate_brute_force_attack ip t0 store r u).1.length
      ∧ (generate_brute_force_attack ip t0 store r u).1.length ≤ 30)
  ∧ (∀ e ∈ (generate_brute_force_attack ip t0 store r u).1,
        e.status = some "fail" ∧ e.session_id = none ∧ e.user_id = none)
  ∧ List.Chain' (fun a b =>
        100 ≤ b.timestamp - a.timestamp ∧ b.timestamp - a.timestamp ≤ 2000)
      (generate_brute_force_attack ip t0 store r u).1 := by
  unfold generate_brute_force_attack
  set mk := UserBehavior.init none ip true none r u with hmk
  set attacker : UserBehavior := { mk.1 with user_agent := "Python-Requests/2.28.1" }
  set n := pyRandint 15 30 mk.2.1 with hn
  obtain ⟨hlen, hfields, _, hchain⟩ := bruteEvents_props attacker store n.1.toNat t0 n.2 mk.2.2
  have hb := pyRandint_bounds (by omega : (15 : Int) ≤ 30) mk.2.1
  rw [← hn] at hb
  exact ⟨⟨by rw [hlen]; omega, by rw [hlen]; omega⟩, hfields, hchain⟩

/-- **C8 (witness).** A fully concrete run (both streams exhausted, so every
draw is the fixed default): 15 events, all failed, with 100 ms gaps. -/
theorem c8_brute_force_witness :
    (generate_brute_force_attack "6.6.6.6" 0 "store-1" [] []).1.length = 15 ∧
    ((generate_brute_force_attack "6.6.6.6" 0 "store-1" [] []).1.map
        (fun e => (e.status, e.session_id, e.user_id, e.timestamp))) =
      (List.range 15).map (fun i => (some "fail", none, none, (100 * i : Int))) := by
  have h := c8_brute_force_shape "6.6.6.6" 0 "store-1" [] []
  refine ⟨?_, by decide⟩
  have h15 := h.1.1
  have h30 := h.1.2
  have : (generate_brute_force_attack "6.6.6.6" 0 "store-1" [] []).1.length = 15 := by decide
  exact this

theorem uuid4_fst_ne_empty (u : UStream) : (uuid4 u).1 ≠ "" := by
  unfold uuid4
  dsimp only
  intro h
  have := congrArg String.data h
  rw [String.data_append] at this
  simp at this

/-- **C9 (counterexample).** `generate_session_sharing_pattern 0 ...`: Python
evaluates `if include_user and user.user_id:` and the integer `0` is falsy,
so the **first** event carries no `user_id` at all — the claim's "two
distinct user_id values (the second equals the first plus 1000)" fails at
`user_id = 0` (and symmetrically at `user_id = -1000` for the second). -/
theorem c9_counterexample_zero_user_id :
    ((generate_session_sharing_pattern 0 0 "store-1" [] []).1.map
        (fun e => e.user_id)) = [none, some 1000] ∧
    (generate_session_sharing_pattern 0 0 "store-1" [] []).1.length = 2 := by
  exact ⟨by decide, by decide⟩

/-- **C9 (amended).** For every `user_id` with `user_id ≠ 0` and
`user_id + 1000 ≠ 0` (which covers all of the corpus generator's own calls,
drawn from [1000, 5000]), `generate_session_sharing_pattern` returns exactly
two events that share one nonempty `session_id` and one `auth_token_id` but
carry the two distinct user ids `user_id` and `user_id + 1000`; the first
event is a successful auth (`auth_token_validated` / `"pass"`) and the
second event's timestamp lies 30 to 120 seconds (inclusive) after the
first's. -/
theorem c9_session_sharing_amended (uid : Int) (t0 : Int) (store : String)
    (r : Rand) (u : UStream) (h1 : uid ≠ 0) (h2 : uid + 1000 ≠ 0) :
    ((generate_session_sharing_pattern uid t0 store r u).1.map
        (fun e => e.user_id)) = [some uid, some (uid + 1000)]
  ∧ (∃ sid : String, sid ≠ "" ∧
      (generate_session_sharing_pattern uid t0 store r u).1.map
          (fun e => e.session_id) = [some sid, some sid])
  ∧ (∃ tok : String,
      (generate_session_sharing_pattern uid t0 store r u).1.map
          (fun e => e.auth_token_id) = [some tok, some tok])
  ∧ (generate_session_sharing_pattern uid t0 store r u).1.map
        (fun e => (e.action, e.status)) =
      [(some "auth_token_validated", some "pass"), (some "view_books", none)]
  ∧ (∃ d : Int, 30000 ≤ d ∧ d ≤ 120000 ∧
      (generate_session_sharing_pattern uid t0 store r u).1.map
          (fun e => e.timestamp) = [t0, t0 + d]) := by
  unfold generate_session_sharing_pattern
  dsimp only
  set sid := uuid4 u with hsid
  set hx := uuidHex16 sid.2
  set ip1 := generate_ip_address r
  set mk1 := UserBehavior.init (some uid) ip1.1 false none ip1.2 hx.2
  set user1 : UserBehavior :=
    { mk1.1 with session_id := sid.1, auth_token_id := "token_" ++ hx.1 } with huser1
  set e1 := generate_event "auth_token_validated" (some "pass") user1 store
      "/api/v1/\x7bstore\x7d/books" t0 true true mk1.2.1 mk1.2.2 with he1
  set g := pyRandint 30 120 e1.2.1 with hg
  set ip2 := generate_ip_address g.2
  set mk2 := UserBehavior.init (some (uid + 1000)) ip2.1 false none ip2.2 e1.2.2
  set user2 : UserBehavior :=
    { mk2.1 with session_id := sid.1, auth_token_id := "token_" ++ hx.1 } with huser2
  set e2 := generate_event "view_books" none user2 store
      "/api/v1/\x7bstore\x7d/books" (t0 + g.1 * 1000) true true mk2.2.1 mk2.2.2 with he2
  have hsne : sid.1 ≠ "" := uuid4_fst_ne_empty u
  have htokne : ("token_" ++ hx.1) ≠ "" := by
    intro h
    have := congrArg String.data h
    rw [String.data_append] at this
    simp at this
  have hu1sid : user1.session_id = sid.1 := rfl
  have hu1tok : user1.auth_token_id = "token_" ++ hx.1 := rfl
  have hu1uid : user1.user_id = some uid := by
    rw [huser1]
    show mk1.1.user_id = some uid
    rfl
  have hu2uid : user2.user_id = some (uid + 1000) := by
    rw [huser2]
    show mk2.1.user_id = some (uid + 1000)
    rfl
  have hgb := pyRandint_bounds (by omega : (30 : Int) ≤ 120) e1.2.1
  rw [← hg] at hgb
  refine ⟨?_, ⟨sid.1, hsne, ?_⟩, ⟨"token_" ++ hx.1, ?_⟩, ?_, ⟨g.1 * 1000, by omega, by omega, ?_⟩⟩
  · rw [List.map_cons, List.map_cons, List.map_nil,
        generate_event_user, generate_event_user, hu1uid, hu2uid]
    simp [truthyOptInt, h1, h2]
  · rw [List.map_cons, List.map_cons, List.map_nil,
        generate_event_session, generate_event_session]
    simp [hsne]
  · rw [List.map_cons, List.map_cons, List.map_nil,
        generate_event_token, generate_event_token]
    simp [htokne]
  · rw [List.map_cons, List.map_cons, List.map_nil]
    have ha1 : e1.1.action = some "auth_token_validated" := generate_event_action _ _ _ _ _ _ _ _ _ _
    have hs1 : e1.1.status = some "pass" := by
      rw [he1, generate_event_status]
      rfl
    have ha2 : e2.1.action = some "view_books" := generate_event_action _ _ _ _ _ _ _ _ _ _
    have hs2 : e2.1.status = none := by
      rw [he2, generate_event_status]
      rfl
    rw [ha1, hs1, ha2, hs2]
  · rw [List.map_cons, List.map_cons, List.map_nil,
        generate_event_timestamp, generate_event_timestamp]

/-- **C9 (witness).** The amended statement at `user_id = 7` with exhausted
streams: user ids 7 and 1007, one shared session and token, 30 s gap. -/
theorem c9_session_sharing_witness :
    ((generate_session_sharing_pattern 7 0 "store-1" [] []).1.map
        (fun e => e.user_id)) = [some 7, some 1007] ∧
    ((generate_session_sharing_pattern 7 0 "store-1" [] []).1.map
        (fun e => e.timestamp)) = [0, 30000] := by
  have h := c9_session_sharing_amended 7 0 "store-1" [] [] (by decide) (by decide)
  refine ⟨?_, by decide⟩
  have := h.1
  simpa using this

theorem chain'_of_length_le_one {α : Type} {R : α → α → Prop} :
    ∀ {l : List α}, l.length ≤ 1 → List.Chain' R l := by
  intro l hl
  match l with
  | [] => exact List.chain'_nil
  | [a] => exact List.chain'_singleton a
  | a :: b :: t => simp only [List.length_cons] at hl; omega

theorem chain'_append_of_all {α : Type} {R : α → α → Prop} {l₁ l₂ : List α}
    (h1 : List.Chain' R l₁) (h2 : List.Chain' R l₂)
    (h : ∀ a ∈ l₁, ∀ b ∈ l₂, R a b) : List.Chain' R (l₁ ++ l₂) := by
  rw [List.chain'_append]
  refine ⟨h1, h2, fun x hx y hy => h x ?_ y ?_⟩
  · exact List.mem_of_getLast?_eq_some hx
  · exact List.mem_of_mem_head? hy

/-- The browse loop emits a `tsLe`-chain whose timestamps all lie between
the entry clock and the exit clock. -/
theorem browseLoop_props (user : UserBehavior) (store_id : String) :
    ∀ (k : Nat) (t : Int) (r : Rand) (u : UStream),
      List.Chain' tsLe (browseLoop user store_id k t r u).1
    ∧ (∀ e ∈ (browseLoop user store_id k t r u).1,
          t ≤ e.timestamp ∧ e.timestamp ≤ (browseLoop user store_id k t r u).2.1)
    ∧ t ≤ (browseLoop user store_id k t r u).2.1 := by
  intro k
  induction k with
  | zero =>
    intro t r u
    refine ⟨List.chain'_nil, ?_, le_refl t⟩
    intro e he
    simp [browseLoop] at he
  | succ n ih =>
    intro t r u
    simp only [browseLoop]
    set act := pyChoice ["view_books", "view_book_detail"] "view_books" r with hact
    set p := pyChoice browsePathPool "" act.2 with hp
    set ev := generate_event act.1 none user store_id p.1 t true true p.2 u with hev
    set g := pyRandint 3 30 ev.2.1 with hg
    have hgb := pyRandint_bounds (by omega : (3 : Int) ≤ 30) ev.2.1
    rw [← hg] at hgb
    obtain ⟨ihc, ihm, ihclk⟩ := ih (t + g.1 * 1000) g.2 ev.2.2
    have hts : ev.1.timestamp = t := generate_event_timestamp _ _ _ _ _ _ _ _ _ _
    have hstep : t ≤ t + g.1 * 1000 := by omega
    refine ⟨?_, ?_, le_trans hstep ihclk⟩
    · rw [List.chain'_cons']
      refine ⟨?_, ihc⟩
      intro h hh
      have hmem := (ihm h (List.mem_of_mem_head? hh)).1
      show ev.1.timestamp ≤ h.timestamp
      omega
    · intro e he
      rcases List.mem_cons.mp he with rfl | he'
      · exact ⟨le_of_eq hts.symm, by rw [hts]; exact le_trans hstep ihclk⟩
      · obtain ⟨hlo, hhi⟩ := ihm e he'
        exact ⟨le_trans hstep hlo, hhi⟩

/-- Glue lemma for the journey shape `x1 :: x2 :: (A ++ B ++ C)`: a sorted
browse segment between `t2` and `ca`, an optional cart event at `ca`, an
optional checkout event at `cb ≥ ca`, and a head pair below `t2`. -/
theorem journey_tail_chain {A B C : List Event} {t2 ca cb : Int} {x1 x2 : Event}
    (hA : List.Chain' tsLe A)
    (hAmem : ∀ e ∈ A, t2 ≤ e.timestamp ∧ e.timestamp ≤ ca)
    (hB : ∀ e ∈ B, e.timestamp = ca) (hBlen : B.length ≤ 1)
    (hC : ∀ e ∈ C, e.timestamp = cb) (hClen : C.length ≤ 1)
    (h2a : t2 ≤ ca) (hab : ca ≤ cb)
    (h12 : x1.timestamp ≤ x2.timestamp) (h2t : x2.timestamp ≤ t2) :
    List.Chain' tsLe (x1 :: x2 :: (A ++ B ++ C)) := by
  have hAB : List.Chain' tsLe (A ++ B) :=
    chain'_append_of_all hA (chain'_of_length_le_one hBlen)
      (fun a ha b hb => by
        show a.timestamp ≤ b.timestamp
        rw [hB b hb]
        exact (hAmem a ha).2)
  have hABC : List.Chain' tsLe (A ++ B ++ C) :=
    chain'_append_of_all hAB (chain'_of_length_le_one hClen)
      (fun a ha c hc => by
        show a.timestamp ≤ c.timestamp
        rw [hC c hc]
        rcases List.mem_append.mp ha with h | h
        · exact le_trans (hAmem a h).2 hab
        · rw [hB a h]; exact hab)
  have hmemAll : ∀ e ∈ A ++ B ++ C, t2 ≤ e.timestamp := by
    intro e he
    rcases List.mem_append.mp he with h | h
    · rcases List.mem_append.mp h with h' | h'
      · exact (hAmem e h').1
      · rw [hB e h']; exact h2a
    · rw [hC e h]; exact le_trans h2a hab
  rw [List.chain'_cons']
  refine ⟨?_, ?_⟩
  · intro h hh
    rw [List.head?_cons, Option.mem_def, Option.some.injEq] at hh
    subst hh
    exact h12
  · rw [List.chain'_cons']
    refine ⟨?_, hABC⟩
    intro h hh
    have hmem := hmemAll h (List.mem_of_mem_head? hh)
    show x2.timestamp ≤ h.timestamp
    omega

/-- Every normal user journey is emitted with non-decreasing timestamps. -/
theorem generate_normal_user_journey_chain (user : UserBehavior) (t0 : Int)
    (store : String) (r : Rand) (u : UStream) :
    List.Chain' tsLe (generate_normal_user_journey user t0 store r u).1 := by
  unfold generate_normal_user_journey
  dsimp only
  set e1 := generate_event "e_token_created" none user store
      "/api/v1/\x7bstore\x7d/books" t0 false false r u with he1
  set g1 := pyRandint 1 5 e1.2.1 with hg1
  set e2 := generate_event "auth_token_validated" (some "pass") user store
      "/api/v1/\x7bstore\x7d/books" (t0 + g1.1 * 1000) true true g1.2 e1.2.2 with he2
  set g2 := pyRandint 2 10 e2.2.1 with hg2
  set nb := pyRandint 2 5 g2.2 with hnb
  set browse := browseLoop user store nb.1.toNat
      (t0 + g1.1 * 1000 + g2.1 * 1000) nb.2 e2.2.2 with hbrowse
  set d1 := pyRandomUnit browse.2.2.1 with hd1
  have hg1b := pyRandint_bounds (by omega : (1 : Int) ≤ 5) e1.2.1
  rw [← hg1] at hg1b
  have hg2b := pyRandint_bounds (by omega : (2 : Int) ≤ 10) e2.2.1
  rw [← hg2] at hg2b
  obtain ⟨hbc, hbm, hbclk⟩ := browseLoop_props user store nb.1.toNat
      (t0 + g1.1 * 1000 + g2.1 * 1000) nb.2 e2.2.2
  rw [← hbrowse] at hbc hbm hbclk
  have he1ts : e1.1.timestamp = t0 := generate_event_timestamp _ _ _ _ _ _ _ _ _ _
  have he2ts : e2.1.timestamp = t0 + g1.1 * 1000 :=
    generate_event_timestamp _ _ _ _ _ _ _ _ _ _
  have h12 : e1.1.timestamp ≤ e2.1.timestamp := by rw [he1ts, he2ts]; omega
  have h2t : e2.1.timestamp ≤ t0 + g1.1 * 1000 + g2.1 * 1000 := by
    rw [he2ts]; omega
  by_cases hc : d1.1 > 300000
  · rw [if_pos hc]
    dsimp only
    set e6 := generate_event "add_to_cart" none user store
        "/api/v1/\x7bstore\x7d/cart/add" browse.2.1 true true d1.2 browse.2.2.2 with he6
    set g3 := pyRandint 2 10 e6.2.1 with hg3
    have hg3b := pyRandint_bounds (by omega : (2 : Int) ≤ 10) e6.2.1
    rw [← hg3] at hg3b
    have he6ts : e6.1.timestamp = browse.2.1 := generate_event_timestamp _ _ _ _ _ _ _ _ _ _
    have hB : ∀ e ∈ [e6.1], e.timestamp = browse.2.1 := by
      intro e he
      rw [List.mem_singleton] at he
      subst he
      exact he6ts
    by_cases hd : (pyRandomUnit g3.2).1 > 600000
    · rw [if_pos hd]
      dsimp only
      set e7 := generate_event "checkout" none user store
          "/api/v1/\x7bstore\x7d/checkout" (browse.2.1 + g3.1 * 1000) true true
          (pyRandomUnit g3.2).2 e6.2.2 with he7
      have he7ts : e7.1.timestamp = browse.2.1 + g3.1 * 1000 :=
        generate_event_timestamp _ _ _ _ _ _ _ _ _ _
      have hC : ∀ e ∈ [e7.1], e.timestamp = browse.2.1 + g3.1 * 1000 := by
        intro e he
        rw [List.mem_singleton] at he
        subst he
        exact he7ts
      exact journey_tail_chain hbc hbm hB (by simp) hC (by simp) hbclk (by omega) h12 h2t
    · rw [if_neg hd]
      dsimp only
      exact journey_tail_chain hbc hbm hB (by simp)
        (fun e (he : e ∈ ([] : List Event)) => absurd he (List.not_mem_nil e))
        (by simp) hbclk (le_refl _) h12 h2t
  · rw [if_neg hc]
    dsimp only
    by_cases hd : (pyRandomUnit d1.2).1 > 600000
    · rw [if_pos hd]
      dsimp only
      set e7 := generate_event "checkout" none user store
          "/api/v1/\x7bstore\x7d/checkout" browse.2.1 true true
          (pyRandomUnit d1.2).2 browse.2.2.2 with he7
      have he7ts : e7.1.timestamp = browse.2.1 := generate_event_timestamp _ _ _ _ _ _ _ _ _ _
      have hC : ∀ e ∈ [e7.1], e.timestamp = browse.2.1 := by
        intro e he
        rw [List.mem_singleton] at he
        subst he
        exact he7ts
      exact journey_tail_chain hbc hbm
        (fun e (he : e ∈ ([] : List Event)) => absurd he (List.not_mem_nil e))
        (by simp) hC (by simp) hbclk (le_refl _) h12 h2t
    · rw [if_neg hd]
      dsimp only
      exact journey_tail_chain hbc hbm
        (fun e (he : e ∈ ([] : List Event)) => absurd he (List.not_mem_nil e))
        (by simp)
        (fun e (he : e ∈ ([] : List Event)) => absurd he (List.not_mem_nil e))
        (by simp) hbclk (le_refl _) h12 h2t

/-- **C6.** Both generators hand downstream a list sorted ascending by
timestamp — the corpus generator (`generate_test_data` ends by sorting and
trimming) and the declarative scenario generator (`generate` ends with
`sort_events`) — and within each generated normal user journey the event
timestamps are non-decreasing from one event to the next. -/
theorem c6_sorted_outputs :
    (∀ (count : Nat) (now : Int) (r : Rand) (u : UStream),
        List.Sorted tsLe (generate_test_data count now r u))
  ∧ (∀ (data : ScenarioData) (now : Int) (r : Rand) (u : UStream) (out : List Event),
        scenarioGenerate data now r u = some out → List.Sorted tsLe out)
  ∧ (∀ (user : UserBehavior) (t0 : Int) (store : String) (r : Rand) (u : UStream),
        List.Chain' tsLe (generate_normal_user_journey user t0 store r u).1) := by
  refine ⟨?_, ?_, fun user t0 store r u => generate_normal_user_journey_chain user t0 store r u⟩
  · intro count now r u
    unfold generate_test_data
    dsimp only
    exact (List.sorted_insertionSort tsLe _).sublist (List.take_sublist _ _)
  · intro data now r u out h
    unfold scenarioGenerate at h
    by_cases he : data.scenarios.isEmpty
    · rw [if_pos he] at h
      exact absurd h (by simp)
    · rw [if_neg he] at h
      dsimp only at h
      injection h with h'
      rw [← h']
      exact List.sorted_insertionSort tsLe _

/-- **C6 (witness).** Concrete sorted outputs: a 4-event corpus, a one-event
scenario document (noise disabled), and one journey chain. -/
theorem c6_sorted_outputs_witness :
    List.Sorted tsLe (generate_test_data 4 0 [] [])
  ∧ (∃ out, scenarioGenerate { scenarios := [{ events := [{}] }] } 0 [] [] = some out
        ∧ List.Sorted tsLe out)
  ∧ List.Chain' tsLe
      (generate_normal_user_journey
        (UserBehavior.init (some 1) "9.9.9.9" false none [] []).1 0 "store-1" [] []).1 := by
  refine ⟨c6_sorted_outputs.1 4 0 [] [], ⟨_, rfl, ?_⟩,
    c6_sorted_outputs.2.2 _ 0 "store-1" [] []⟩
  exact c6_sorted_outputs.2.1 { scenarios := [{ events := [{}] }] } 0 [] [] _ rfl

/-- The brute-force attempt loop threads the urandom stream only into
`event_id`/token fields: the `random`-module fields and the outgoing
`random` state agree across any two urandom streams (and any two attacker
records, which differ only in urandom-derived session/token strings). -/
theorem bruteEvents_seeded (store : String) (att att' : UserBehavior) :
    ∀ (n : Nat) (t : Int) (r : Rand) (u u' : UStream),
      (bruteEvents att store n t r u).1.map
          (fun e => (e.timestamp, e.action, e.status, e.session_id, e.user_id))
        = (bruteEvents att' store n t r u').1.map
          (fun e => (e.timestamp, e.action, e.status, e.session_id, e.user_id))
    ∧ (bruteEvents att store n t r u).2.1 = (bruteEvents att' store n t r u').2.1 := by
  intro n
  induction n with
  | zero =>
    intro t r u u'
    exact ⟨rfl, rfl⟩
  | succ k ih =>
    intro t r u u'
    simp only [bruteEvents, List.map_cons]
    exact ⟨congrArg₂ List.cons rfl (ih _ _ _ _).1, (ih _ _ _ _).2⟩

/-- **C7 (counterexample).** Fixing the seedable `random` source (here the
exhausted stream `[]`) does **not** reproduce the event lists: `event_id`,
`session_id` and `auth_token_id` are drawn from `uuid.uuid4()`, which reads
`os.urandom` and ignores `random.seed`.  Two runs identical in everything
but the urandom draws differ in `session_id` (first conjunct) and in
`event_id` (second conjunct), while the seeded timestamps agree (third). -/
theorem c7_counterexample_urandom :
    ((generate_session_sharing_pattern 7 0 "store-1" [] []).1.map
        (fun e => e.session_id))
      ≠ ((generate_session_sharing_pattern 7 0 "store-1" [] [5]).1.map
        (fun e => e.session_id))
  ∧ ((generate_session_sharing_pattern 7 0 "store-1" [] []).1.map
        (fun e => e.event_id))
      ≠ ((generate_session_sharing_pattern 7 0 "store-1" [] [0, 0, 0, 0, 5]).1.map
        (fun e => e.event_id))
  ∧ ((generate_session_sharing_pattern 7 0 "store-1" [] []).1.map
        (fun e => e.timestamp))
      = ((generate_session_sharing_pattern 7 0 "store-1" [] [5]).1.map
        (fun e => e.timestamp)) := by
  exact ⟨by decide, by decide, by decide⟩

/-- **C7 (amended).** Only the fields drawn from the seedable `random`
module are reproducible under the seed: with the `random` stream fixed and
the urandom stream varied arbitrarily, a brute-force run reproduces its
timestamps, actions, statuses and (absent) session/user attributions, and a
session-sharing run reproduces its timestamps — while the counterexample
shows the uuid-derived `event_id`/`session_id` fields are not covered. -/
theorem c7_seeded_fields_reproducible (ip : String) (t0 : Int) (store : String)
    (r : Rand) (u u' : UStream) :
    (generate_brute_force_attack ip t0 store r u).1.map
        (fun e => (e.timestamp, e.action, e.status, e.session_id, e.user_id))
      = (generate_brute_force_attack ip t0 store r u').1.map
        (fun e => (e.timestamp, e.action, e.status, e.session_id, e.user_id))
  ∧ ∀ (uid : Int),
      (generate_session_sharing_pattern uid t0 store r u).1.map (fun e => e.timestamp)
        = (generate_session_sharing_pattern uid t0 store r u').1.map (fun e => e.timestamp) := by
  constructor
  · unfold generate_brute_force_attack
    exact (bruteEvents_seeded store _ _ _ _ _ _ _).1
  · intro uid
    rfl

/-- **C7 (witness).** The amended reproducibility at concrete streams: the
seeded brute-force fields agree across the urandom variation `[]` vs `[5]`. -/
theorem c7_seeded_fields_witness :
    (generate_brute_force_attack "1.1.1.1" 0 "store-1" [] []).1.map
        (fun e => (e.timestamp, e.action, e.status, e.session_id, e.user_id))
      = (generate_brute_force_attack "1.1.1.1" 0 "store-1" [] [5]).1.map
        (fun e => (e.timestamp, e.action, e.status, e.session_id, e.user_id)) :=
  (c7_seeded_fields_reproducible "1.1.1.1" 0 "store-1" [] [] [5]).1

end Naglfar
